import Mathlib

/-!
Verification of the ping-envio-indexing event-aggregation engine.

This file gives a shallow embedding of the indexer's handlers and arithmetic
utilities and proves or refutes the specification's claims about them.

Conventions of the embedding:
* TypeScript `bigint` values are modelled as `Int` (or `Nat` where the source
  value is a chain-supplied unsigned quantity such as a timestamp);
  `bigint` division (`/`, truncation toward zero) is `Int.tdiv`.
* `BigDecimal` values are modelled as `ℚ`: every `BigDecimal` the handlers
  build arises from integer literals, exact division by a power of ten,
  addition, subtraction and multiplication, all of which are exact in `ℚ`.
* The entity store (`context.<Entity>.get` / `context.<Entity>.set`) is an
  association list per entity table, keyed by the composed id strings the
  handlers build; `set` replaces any previous binding of the key.
* `async`/`await` sequencing is irrelevant for single-handler runs (each
  handler awaits every read before using it), so handlers become pure
  functions `Store → Store` (plus the list of emitted warn-level messages).
* `context.log.warn` messages are collected in an output list; `info`-level
  logging is dropped.
-/

namespace PingIndexer

/-! ## Entity-store primitives (association lists keyed by id strings) -/

/-- Remove every binding of key `k` (the framework's `set` overwrites). -/
def eraseKey {α : Type} (k : String) (l : List (String × α)) : List (String × α) :=
  l.filter (fun p => p.1 ≠ k)

/-- `context.<Entity>.get k` -/
def getE {α : Type} (l : List (String × α)) (k : String) : Option α :=
  (l.find? (fun p => p.1 = k)).map (·.2)

/-- `context.<Entity>.set` of a value whose id is `k`. -/
def setE {α : Type} (k : String) (v : α) (l : List (String × α)) : List (String × α) :=
  (k, v) :: eraseKey k l

/-! ## Shared utilities (src/utils/index.ts) -/

/-- `normalizeAddress`: lower-case an address string (`toLowerCase()`;
address strings are ASCII, so this is a character-wise lowering — written
over the underlying character list so that it evaluates structurally). -/
def normalizeAddress (address : String) : String :=
  ⟨address.data.map Char.toLower⟩

/-- `exponentToBigDecimal`: the digit string `"1"` followed by `decimals`
zeros, read as a decimal number, i.e. `10 ^ decimals`. -/
def exponentToBigDecimal (decimals : Nat) : ℚ := 10 ^ decimals

/-- `convertTokenToDecimal`: divide a raw token amount by `10 ^ decimals`
(exact decimal arithmetic), returning the amount unchanged when
`decimals == 0`. -/
def convertTokenToDecimal (tokenAmount : Int) (decimals : Nat) : ℚ :=
  if decimals = 0 then (tokenAmount : ℚ)
  else (tokenAmount : ℚ) / exponentToBigDecimal decimals

/-- Days (UTC) and civil date of a Unix timestamp, per the proleptic Gregorian
calendar used by JavaScript `Date.getUTCFullYear/Month/Date`.
Returns `(year, month, day)`. -/
def civilFromDays (z : Nat) : Nat × Nat × Nat :=
  let z' := z + 719468
  let era := z' / 146097
  let doe := z' % 146097
  let yoe := (doe - doe / 1460 + doe / 36524 - doe / 146096) / 365
  let y := yoe + era * 400
  let doy := doe - (365 * yoe + yoe / 4 - yoe / 100)
  let mp := (5 * doy + 2) / 153
  let d := doy - (153 * mp + 2) / 5 + 1
  let m := if mp < 10 then mp + 3 else mp - 9
  (if m ≤ 2 then y + 1 else y, m, d)

/-- Two-digit zero padding (`String.padStart(2, "0")` on a month/day). -/
def pad2 (n : Nat) : String :=
  if n < 10 then "0" ++ toString n else toString n

/-- `getDayId`: the `YYYY-MM-DD` UTC date string of a timestamp (seconds). -/
def getDayId (timestamp : Nat) : String :=
  let c := civilFromDays (timestamp / 86400)
  toString c.1 ++ "-" ++ pad2 c.2.1 ++ "-" ++ pad2 c.2.2

/-- `getDayStartTimestamp`: midnight UTC of the timestamp's day. -/
def getDayStartTimestamp (timestamp : Nat) : Nat :=
  timestamp / 86400 * 86400

/-! ## Constants (src/utils/constants.ts) -/

def PING_TOKEN_ADDRESS : String := "0xd85c31854c2B0Fb40aaA9E2Fc4Da23C21f829d46"
def ADDRESS_ZERO : String := "0x0000000000000000000000000000000000000000"
def TOKEN_SYMBOL : String := "PING"
def TOKEN_NAME : String := "Ping"
def TOKEN_DECIMALS : Nat := 18
def POOL_RELATION_BUY : String := "BUY"
def POOL_RELATION_SELL : String := "SELL"
def POOL_RELATION_NONE : String := "NONE"
def LIQUIDITY_ADD : String := "ADD"
def LIQUIDITY_REMOVE : String := "REMOVE"

/-! ## Entities (schema as populated by the handlers) -/

structure Token where
  id : String
  chainId : Nat
  address : String
  symbol : String
  name : String
  decimals : Nat
  totalSupply : Int
  totalTransfers : Int
  totalVolume : ℚ
  holderCount : Int
  deriving DecidableEq

structure Account where
  id : String
  chainId : Nat
  address : String
  balance : ℚ
  totalSent : ℚ
  totalReceived : ℚ
  transferCount : Int
  firstTransferAt : Nat
  lastTransferAt : Nat
  lastTransferHash : String
  lastBuyAt : Option Nat
  lastBuyHash : Option String
  lastSellAt : Option Nat
  lastSellHash : Option String
  totalBuys : Int
  totalSells : Int
  totalBuyVolume : ℚ
  totalSellVolume : ℚ
  deriving DecidableEq

structure Pool where
  id : String
  chainId : Nat
  address : String
  token0 : String
  token1 : String
  feeTier : Int
  tickSpacing : Int
  token0Symbol : String
  token0Name : String
  token0Decimals : Nat
  token1Symbol : String
  token1Name : String
  token1Decimals : Nat
  liquidity : Int
  sqrtPriceX96 : Int
  tick : Int
  isActive : Bool
  volumeToken0 : ℚ
  volumeToken1 : ℚ
  txCount : Int
  totalValueLockedToken0 : ℚ
  totalValueLockedToken1 : ℚ
  createdAt : Nat
  createdAtBlock : Nat
  lastSwapAt : Nat
  deriving DecidableEq

structure TransferEntity where
  id : String
  chainId : Nat
  transactionHash : String
  timestamp : Nat
  blockNumber : Nat
  logIndex : Nat
  from_id : String
  to_id : String
  value : ℚ
  isPoolRelated : Bool
  poolRelatedType : String
  relatedPool_id : Option String
  deriving DecidableEq

structure DailyTokenActivity where
  id : String
  chainId : Nat
  date : String
  timestamp : Nat
  dailyTransfers : Int
  dailyVolume : ℚ
  dailyActiveAccounts : Int
  newAccounts : Int
  deriving DecidableEq

structure SwapEntity where
  id : String
  chainId : Nat
  transactionHash : String
  timestamp : Nat
  blockNumber : Nat
  logIndex : Nat
  pool_id : String
  sender : String
  recipient : String
  amount0 : ℚ
  amount1 : ℚ
  sqrtPriceX96 : Int
  liquidity : Int
  tick : Int
  deriving DecidableEq

structure DailyPoolActivity where
  id : String
  chainId : Nat
  pool : String
  date : String
  timestamp : Nat
  dailySwaps : Int
  dailyVolumeToken0 : ℚ
  dailyVolumeToken1 : ℚ
  liquidityStart : Int
  liquidityEnd : Int
  sqrtPriceX96Start : Int
  sqrtPriceX96End : Int
  deriving DecidableEq

structure PoolV4 where
  id : String
  chainId : Nat
  poolId : String
  currency0 : String
  currency1 : String
  fee : Int
  tickSpacing : Int
  hooks : String
  currency0Symbol : String
  currency0Name : String
  currency0Decimals : Nat
  currency1Symbol : String
  currency1Name : String
  currency1Decimals : Nat
  sqrtPriceX96 : Int
  liquidity : Int
  tick : Int
  isActive : Bool
  volumeCurrency0 : ℚ
  volumeCurrency1 : ℚ
  txCount : Int
  totalValueLockedCurrency0 : ℚ
  totalValueLockedCurrency1 : ℚ
  createdAt : Nat
  createdAtBlock : Nat
  lastSwapAt : Nat
  deriving DecidableEq

structure PoolV4Registry where
  id : String
  poolId : String
  isPingPool : Bool
  currency0 : String
  currency1 : String
  deriving DecidableEq

structure SwapV4 where
  id : String
  chainId : Nat
  transactionHash : String
  timestamp : Nat
  blockNumber : Nat
  logIndex : Nat
  pool_id : String
  poolId : String
  sender : String
  amount0 : ℚ
  amount1 : ℚ
  sqrtPriceX96 : Int
  liquidity : Int
  tick : Int
  swapFee : Int
  deriving DecidableEq

structure ModifyLiquidityV4 where
  id : String
  chainId : Nat
  transactionHash : String
  timestamp : Nat
  blockNumber : Nat
  logIndex : Nat
  pool_id : String
  poolId : String
  sender : String
  tickLower : Int
  tickUpper : Int
  liquidityDelta : Int
  salt : String
  amount0 : ℚ
  amount1 : ℚ
  modificationType : String
  deriving DecidableEq

/-- The persisted entity store: one keyed table per entity kind. -/
structure Store where
  tokens : List (String × Token)
  accounts : List (String × Account)
  pools : List (String × Pool)
  transfers : List (String × TransferEntity)
  dailyToken : List (String × DailyTokenActivity)
  swaps : List (String × SwapEntity)
  dailyPool : List (String × DailyPoolActivity)
  poolV4s : List (String × PoolV4)
  poolV4Registry : List (String × PoolV4Registry)
  swapV4s : List (String × SwapV4)
  modifyLiquidityV4s : List (String × ModifyLiquidityV4)
  deriving DecidableEq

def emptyStore : Store :=
  ⟨[], [], [], [], [], [], [], [], [], [], []⟩

/-- Composite id `` `${chainId}_${key}` ``. -/
def mkId (chainId : Nat) (key : String) : String :=
  toString chainId ++ "_" ++ key

/-- Immutable event-record id `` `${chainId}_${blockNumber}_${logIndex}` ``. -/
def mkEventId (chainId blockNumber logIndex : Nat) : String :=
  toString chainId ++ "_" ++ toString blockNumber ++ "_" ++ toString logIndex

/-! ## V4 tick math (src/utils/v4-tick-math.ts)

`getSqrtRatioAtTick` computes `floor(sqrt(1.0001 ^ tick) * 2^96)` with
IEEE-754 `Math.sqrt`/`Math.pow`; that floating-point approximation is not
shallow-embeddable, so the handler that consumes it is parametrised over the
tick → sqrt-price map. Its domain guard (`MIN_TICK`/`MAX_TICK`, throwing on
out-of-range ticks) is embedded below. -/

def Q96 : Int := 2 ^ 96
def MIN_TICK : Int := -887272
def MAX_TICK : Int := 887272

/-- `getAmount0DeltaHelper` (`bigint` division truncates toward zero). -/
def getAmount0DeltaHelper (sqrtPriceLowerX96 sqrtPriceUpperX96 liquidity : Int)
    (roundUp : Bool) : Int :=
  let numerator := liquidity * (sqrtPriceUpperX96 - sqrtPriceLowerX96)
  let denominator := sqrtPriceUpperX96 * sqrtPriceLowerX96
  if roundUp then (numerator * Q96 + denominator - 1).tdiv denominator
  else (numerator * Q96).tdiv denominator

/-- `getAmount0Delta`: orders the two sqrt-price bounds, then rounds up for
mints (non-negative liquidity) and negates the rounded-down magnitude for
burns (negative liquidity). -/
def getAmount0Delta (sqrtPriceAX96 sqrtPriceBX96 liquidity : Int) : Int :=
  let sqrtPriceLowerX96 :=
    if sqrtPriceAX96 > sqrtPriceBX96 then sqrtPriceBX96 else sqrtPriceAX96
  let sqrtPriceUpperX96 :=
    if sqrtPriceAX96 > sqrtPriceBX96 then sqrtPriceAX96 else sqrtPriceBX96
  if liquidity < 0 then
    -getAmount0DeltaHelper sqrtPriceLowerX96 sqrtPriceUpperX96 (-liquidity) false
  else
    getAmount0DeltaHelper sqrtPriceLowerX96 sqrtPriceUpperX96 liquidity true

/-- `getAmount1DeltaHelper`. -/
def getAmount1DeltaHelper (sqrtPriceLowerX96 sqrtPriceUpperX96 liquidity : Int)
    (roundUp : Bool) : Int :=
  let diff := sqrtPriceUpperX96 - sqrtPriceLowerX96
  if roundUp then (liquidity * diff + Q96 - 1).tdiv Q96
  else (liquidity * diff).tdiv Q96

/-- `getAmount1Delta`. -/
def getAmount1Delta (sqrtPriceAX96 sqrtPriceBX96 liquidity : Int) : Int :=
  let sqrtPriceLowerX96 :=
    if sqrtPriceAX96 > sqrtPriceBX96 then sqrtPriceBX96 else sqrtPriceAX96
  let sqrtPriceUpperX96 :=
    if sqrtPriceAX96 > sqrtPriceBX96 then sqrtPriceAX96 else sqrtPriceBX96
  if liquidity < 0 then
    -getAmount1DeltaHelper sqrtPriceLowerX96 sqrtPriceUpperX96 (-liquidity) false
  else
    getAmount1DeltaHelper sqrtPriceLowerX96 sqrtPriceUpperX96 liquidity true

/-- `getLiquidityAmounts`: dispatch on the current price's position relative
to the `[lower, upper]` sqrt-price range. -/
def getLiquidityAmounts (currentSqrtPriceX96 sqrtPriceLowerX96 sqrtPriceUpperX96
    liquidityDelta : Int) : Int × Int :=
  if currentSqrtPriceX96 ≤ sqrtPriceLowerX96 then
    (getAmount0Delta sqrtPriceLowerX96 sqrtPriceUpperX96 liquidityDelta, 0)
  else if currentSqrtPriceX96 < sqrtPriceUpperX96 then
    (getAmount0Delta currentSqrtPriceX96 sqrtPriceUpperX96 liquidityDelta,
     getAmount1Delta sqrtPriceLowerX96 currentSqrtPriceX96 liquidityDelta)
  else
    (0, getAmount1Delta sqrtPriceLowerX96 sqrtPriceUpperX96 liquidityDelta)

/-- `convertToDecimal` (v4-tick-math): splits `amount` into integer and
fractional digits of `amount / 10^decimals` and reads the decimal string
back; for the non-negative amounts it is called with this is exactly
`amount / 10^decimals` in `ℚ`. -/
def convertToDecimal (amount : Int) (decimals : Nat) : ℚ :=
  let divisor : Int := 10 ^ decimals
  let integerPart := amount.tdiv divisor
  let fractionalPart := amount.tmod divisor
  (integerPart : ℚ) + (fractionalPart : ℚ) / (10 : ℚ) ^ decimals

/-- `abs` on `bigint`. -/
def absBI (value : Int) : Int := if value < 0 then -value else value

/-! ## Events -/

structure TransferEvent where
  chainId : Nat
  fromAddr : String
  toAddr : String
  value : Nat
  timestamp : Nat
  blockNumber : Nat
  logIndex : Nat
  txHash : String
  deriving DecidableEq

structure SwapEvent where
  chainId : Nat
  srcAddress : String
  sender : String
  recipient : String
  amount0 : Int
  amount1 : Int
  sqrtPriceX96 : Int
  liquidity : Int
  tick : Int
  timestamp : Nat
  blockNumber : Nat
  logIndex : Nat
  txHash : String
  txFrom : Option String
  deriving DecidableEq

structure InitializeEvent where
  chainId : Nat
  srcAddress : String
  sqrtPriceX96 : Int
  tick : Int
  deriving DecidableEq

structure SwapV4Event where
  chainId : Nat
  poolId : String
  sender : String
  amount0 : Int
  amount1 : Int
  sqrtPriceX96 : Int
  liquidity : Int
  tick : Int
  swapFee : Int
  timestamp : Nat
  blockNumber : Nat
  logIndex : Nat
  txHash : String
  txFrom : Option String
  deriving DecidableEq

structure ModifyLiquidityV4Event where
  chainId : Nat
  poolId : String
  sender : String
  tickLower : Int
  tickUpper : Int
  liquidityDelta : Int
  salt : String
  timestamp : Nat
  blockNumber : Nat
  logIndex : Nat
  txHash : String
  deriving DecidableEq

/-! ## Transfer handler (src/handlers/transfer-handler.ts, `Ping.Transfer`)

The handler's named local constructions (`holderCountDelta`, `tokenEntity`,
`updatedFromAccount`, `updatedToAccount`, the two conditional account writes)
are transcribed as top-level definitions parametrised by the values the
handler has in scope at that point. -/

/-- `holderCountDelta`: −1 when a non-zero, non-pool sender's balance drops
from positive to non-positive, +1 when a non-zero, non-pool receiver's
balance rises from non-positive to positive. -/
def transferHolderCountDelta (fromAddress toAddress : String)
    (fromPool toPool : Option Pool) (fromAccount toAccount : Option Account)
    (transferValue : ℚ) : Int :=
  (if fromAddress ≠ ADDRESS_ZERO ∧ fromPool = none then
    match fromAccount with
    | some fa =>
      if fa.balance > 0 ∧ fa.balance - transferValue ≤ 0 then -1 else 0
    | none => 0
  else 0)
  +
  (if toAddress ≠ ADDRESS_ZERO ∧ toPool = none then
    let oldBalance := (toAccount.map Account.balance).getD 0
    if oldBalance ≤ 0 ∧ oldBalance + transferValue > 0 then 1 else 0
  else 0)

/-- `tokenEntity`: Token upsert. `BigInt(Number(token.holderCount) + delta)`
is exact below 2^53 and modelled as ℤ addition. -/
def transferTokenEntity (tokenId : String) (chainId : Nat) (token : Option Token)
    (transferValue : ℚ) (holderCountDelta : Int) : Token :=
  match token with
  | some t =>
    { t with
      totalTransfers := t.totalTransfers + 1
      totalVolume := t.totalVolume + transferValue
      holderCount := t.holderCount + holderCountDelta }
  | none =>
    { id := tokenId, chainId, address := PING_TOKEN_ADDRESS
      symbol := TOKEN_SYMBOL, name := TOKEN_NAME, decimals := TOKEN_DECIMALS
      totalSupply := 0, totalTransfers := 1, totalVolume := transferValue
      holderCount := if holderCountDelta > 0 then holderCountDelta else 0 }

/-- `updatedFromAccount`: sender Account upsert. -/
def transferUpdatedFromAccount (chainId : Nat) (fromAddress : String)
    (fromAccount : Option Account) (transferValue : ℚ) (poolRelatedType : String)
    (timestamp : Nat) (txHash : String) : Account :=
  match fromAccount with
  | some fa =>
    { fa with
      balance := fa.balance - transferValue
      totalSent := fa.totalSent + transferValue
      transferCount := fa.transferCount + 1
      lastTransferAt := timestamp
      lastTransferHash := txHash
      lastSellAt := if poolRelatedType = POOL_RELATION_SELL then some timestamp else fa.lastSellAt
      lastSellHash := if poolRelatedType = POOL_RELATION_SELL then some txHash else fa.lastSellHash
      totalSells := if poolRelatedType = POOL_RELATION_SELL then fa.totalSells + 1 else fa.totalSells
      totalSellVolume := if poolRelatedType = POOL_RELATION_SELL then fa.totalSellVolume + transferValue else fa.totalSellVolume }
  | none =>
    { id := mkId chainId fromAddress, chainId, address := fromAddress
      balance := 0 - transferValue
      totalSent := transferValue, totalReceived := 0, transferCount := 1
      firstTransferAt := timestamp, lastTransferAt := timestamp
      lastTransferHash := txHash
      lastBuyAt := none, lastBuyHash := none
      lastSellAt := if poolRelatedType = POOL_RELATION_SELL then some timestamp else none
      lastSellHash := if poolRelatedType = POOL_RELATION_SELL then some txHash else none
      totalBuys := 0
      totalSells := if poolRelatedType = POOL_RELATION_SELL then 1 else 0
      totalBuyVolume := 0
      totalSellVolume := if poolRelatedType = POOL_RELATION_SELL then transferValue else 0 }

/-- `updatedToAccount`: receiver Account upsert, computed from the preloaded
snapshot of the receiver's row. -/
def transferUpdatedToAccount (chainId : Nat) (toAddress : String)
    (toAccount : Option Account) (transferValue : ℚ) (poolRelatedType : String)
    (timestamp : Nat) (txHash : String) : Account :=
  match toAccount with
  | some ta =>
    { ta with
      balance := ta.balance + transferValue
      totalReceived := ta.totalReceived + transferValue
      transferCount := ta.transferCount + 1
      lastTransferAt := timestamp
      lastTransferHash := txHash
      lastBuyAt := if poolRelatedType = POOL_RELATION_BUY then some timestamp else ta.lastBuyAt
      lastBuyHash := if poolRelatedType = POOL_RELATION_BUY then some txHash else ta.lastBuyHash
      totalBuys := if poolRelatedType = POOL_RELATION_BUY then ta.totalBuys + 1 else ta.totalBuys
      totalBuyVolume := if poolRelatedType = POOL_RELATION_BUY then ta.totalBuyVolume + transferValue else ta.totalBuyVolume }
  | none =>
    { id := mkId chainId toAddress, chainId, address := toAddress
      balance := transferValue
      totalSent := 0, totalReceived := transferValue, transferCount := 1
      firstTransferAt := timestamp, lastTransferAt := timestamp
      lastTransferHash := txHash
      lastBuyAt := if poolRelatedType = POOL_RELATION_BUY then some timestamp else none
      lastBuyHash := if poolRelatedType = POOL_RELATION_BUY then some txHash else none
      lastSellAt := none, lastSellHash := none
      totalBuys := if poolRelatedType = POOL_RELATION_BUY then 1 else 0
      totalSells := 0
      totalBuyVolume := if poolRelatedType = POOL_RELATION_BUY then transferValue else 0
      totalSellVolume := 0 }

/-- The two conditional Account writes, in execution order (sender first,
receiver second; both are skipped for the zero address and pool addresses). -/
def transferAccountsUpdate (chainId : Nat) (fromAddress toAddress : String)
    (fromPool toPool : Option Pool) (fromAccount toAccount : Option Account)
    (transferValue : ℚ) (poolRelatedType : String) (timestamp : Nat)
    (txHash : String) (accounts : List (String × Account)) :
    List (String × Account) :=
  let accounts1 :=
    if fromAddress ≠ ADDRESS_ZERO ∧ fromPool = none then
      setE (mkId chainId fromAddress)
        (transferUpdatedFromAccount chainId fromAddress fromAccount
          transferValue poolRelatedType timestamp txHash) accounts
    else accounts
  if toAddress ≠ ADDRESS_ZERO ∧ toPool = none then
    setE (mkId chainId toAddress)
      (transferUpdatedToAccount chainId toAddress toAccount
        transferValue poolRelatedType timestamp txHash) accounts1
  else accounts1

/-- `Ping.Transfer.handler`. Reads are issued first (the preload warm-up),
processing is skipped when `isPreload`; during commit the handler classifies
the transfer against the tracked pools, maintains the holder-count delta from
zero↔non-zero balance transitions, and upserts Token, both Accounts, the
immutable Transfer record and the day's DailyTokenActivity. -/
def pingTransferHandler (isPreload : Bool) (ev : TransferEvent) (st : Store) : Store :=
  let chainId := ev.chainId
  let tokenId := mkId chainId (normalizeAddress PING_TOKEN_ADDRESS)
  let fromAddress := normalizeAddress ev.fromAddr
  let toAddress := normalizeAddress ev.toAddr
  -- parallel preloaded reads
  let token := getE st.tokens tokenId
  let fromAccount := getE st.accounts (mkId chainId fromAddress)
  let toAccount := getE st.accounts (mkId chainId toAddress)
  let dailyActivity := getE st.dailyToken (mkId chainId (getDayId ev.timestamp))
  -- skip the actual processing during preload phase
  if isPreload then st else
  let transferValue := convertTokenToDecimal (ev.value : Int) TOKEN_DECIMALS
  -- pool-relation classification: the to-pool check runs second and wins
  let fromPool := getE st.pools (mkId chainId fromAddress)
  let toPool := getE st.pools (mkId chainId toAddress)
  let relatedPool : Option Pool := match toPool with
    | some p => some p
    | none => fromPool
  let isPoolRelated := fromPool.isSome || toPool.isSome
  let poolRelatedType :=
    if toPool.isSome then POOL_RELATION_SELL
    else if fromPool.isSome then POOL_RELATION_BUY
    else POOL_RELATION_NONE
  let holderCountDelta := transferHolderCountDelta fromAddress toAddress
    fromPool toPool fromAccount toAccount transferValue
  let isNewAccount := toAccount = none ∧ toAddress ≠ ADDRESS_ZERO ∧ toPool = none
  let tokenEntity := transferTokenEntity tokenId chainId token transferValue holderCountDelta
  let txHash := ev.txHash
  let timestamp := ev.timestamp
  let accounts2 := transferAccountsUpdate chainId fromAddress toAddress
    fromPool toPool fromAccount toAccount transferValue poolRelatedType
    timestamp txHash st.accounts
  -- immutable Transfer record
  let transferEntity : TransferEntity :=
    { id := mkEventId chainId ev.blockNumber ev.logIndex, chainId
      transactionHash := txHash, timestamp
      blockNumber := ev.blockNumber, logIndex := ev.logIndex
      from_id := mkId chainId fromAddress, to_id := mkId chainId toAddress
      value := transferValue, isPoolRelated, poolRelatedType
      relatedPool_id := relatedPool.map Pool.id }
  -- DailyTokenActivity upsert
  let dayId := getDayId timestamp
  let dayStartTimestamp := getDayStartTimestamp timestamp
  let updatedDailyActivity : DailyTokenActivity := match dailyActivity with
    | some da =>
      { da with
        dailyTransfers := da.dailyTransfers + 1
        dailyVolume := da.dailyVolume + transferValue
        newAccounts := if isNewAccount then da.newAccounts + 1 else da.newAccounts }
    | none =>
      { id := mkId chainId dayId, chainId, date := dayId
        timestamp := dayStartTimestamp
        dailyTransfers := 1, dailyVolume := transferValue
        dailyActiveAccounts := 1
        newAccounts := if isNewAccount then 1 else 0 }
  { st with
    tokens := setE tokenId tokenEntity st.tokens
    accounts := accounts2
    transfers := setE transferEntity.id transferEntity st.transfers
    dailyToken := setE (mkId chainId dayId) updatedDailyActivity st.dailyToken }

/-! ## V3 swap handler (src/handlers/swap-handler.ts, `UniswapV3Pool.Swap`) -/

/-- `UniswapV3Pool.Swap.handler`. Returns the updated store and the list of
warn-level log messages. Preload short-circuits after the warm-up reads; a
missing Pool is a warn-and-skip; otherwise the handler updates the Pool,
inserts the immutable Swap record, tracks PING buy/sell aggregates on the
relevant Account, and upserts DailyPoolActivity. -/
def uniswapV3SwapHandler (isPreload : Bool) (ev : SwapEvent) (st : Store) :
    Store × List String :=
  let chainId := ev.chainId
  let poolAddress := normalizeAddress ev.srcAddress
  let poolId := mkId chainId poolAddress
  let dayId := getDayId ev.timestamp
  -- parallel preloaded reads
  let pool? := getE st.pools poolId
  let dailyActivity := getE st.dailyPool (poolId ++ "_" ++ dayId)
  if isPreload then (st, []) else
  match pool? with
  | none =>
    (st, ["Pool " ++ poolAddress ++ " not found in database. Skipping swap event."])
  | some pool =>
    let token0Decimals := pool.token0Decimals
    let token1Decimals := pool.token1Decimals
    let amount0Raw := ev.amount0
    let amount1Raw := ev.amount1
    -- convert to decimal, preserving sign
    let amount0 := convertTokenToDecimal
      (if amount0Raw < 0 then -amount0Raw else amount0Raw) token0Decimals
    let amount1 := convertTokenToDecimal
      (if amount1Raw < 0 then -amount1Raw else amount1Raw) token1Decimals
    let amount0Signed := if amount0Raw < 0 then amount0 * (0 - 1) else amount0
    let amount1Signed := if amount1Raw < 0 then amount1 * (0 - 1) else amount1
    -- volume accumulates the unsigned magnitudes
    let amount0Abs := amount0
    let amount1Abs := amount1
    let currentLiquidity := ev.liquidity
    let isActive := currentLiquidity > 0
    let poolEntity : Pool :=
      { pool with
        liquidity := currentLiquidity
        sqrtPriceX96 := ev.sqrtPriceX96
        tick := ev.tick
        isActive
        volumeToken0 := pool.volumeToken0 + amount0Abs
        volumeToken1 := pool.volumeToken1 + amount1Abs
        txCount := pool.txCount + 1
        lastSwapAt := ev.timestamp }
    let swapEntity : SwapEntity :=
      { id := mkEventId chainId ev.blockNumber ev.logIndex, chainId
        transactionHash := ev.txHash, timestamp := ev.timestamp
        blockNumber := ev.blockNumber, logIndex := ev.logIndex
        pool_id := poolId
        sender := normalizeAddress ev.sender
        recipient := normalizeAddress ev.recipient
        amount0 := amount0Signed, amount1 := amount1Signed
        sqrtPriceX96 := ev.sqrtPriceX96
        liquidity := currentLiquidity
        tick := ev.tick }
    -- PING buy/sell tracking
    let pingAddress := normalizeAddress PING_TOKEN_ADDRESS
    let token0Address := normalizeAddress pool.token0
    let token1Address := normalizeAddress pool.token1
    let isPingToken0 := token0Address = pingAddress
    let isPingToken1 := token1Address = pingAddress
    let accountsAndWarns : List (String × Account) × List String :=
      if isPingToken0 ∨ isPingToken1 then
        match ev.txFrom with
        | none =>
          (st.accounts,
           ["Swap event missing transaction.from field at block " ++
            toString ev.blockNumber ++ ". Skipping buy/sell tracking."])
        | some txFromAddr =>
          let txInitiator := normalizeAddress txFromAddr
          let recipient := normalizeAddress ev.recipient
          let txHash := ev.txHash
          let timestamp := ev.timestamp
          -- BUY/SELL classification by the sign of the PING leg
          let isBuy :=
            if isPingToken0 then amount0Raw > 0
            else if isPingToken1 then amount1Raw > 0 else False
          let isSell :=
            if isPingToken0 then amount0Raw < 0
            else if isPingToken1 then amount1Raw < 0 else False
          let pingAmount : ℚ :=
            if isPingToken0 then
              (if amount0Raw > 0 ∨ amount0Raw < 0 then amount0Abs else 0)
            else if isPingToken1 then
              (if amount1Raw > 0 ∨ amount1Raw < 0 then amount1Abs else 0)
            else 0
          -- the BUY update targets the swap recipient's existing account
          let accountsB :=
            if isBuy ∧ pingAmount > 0 then
              match getE st.accounts (mkId chainId recipient) with
              | some account =>
                setE (mkId chainId recipient)
                  { account with
                    lastBuyAt := some timestamp
                    lastBuyHash := some txHash
                    totalBuys := account.totalBuys + 1
                    totalBuyVolume := account.totalBuyVolume + pingAmount }
                  st.accounts
              | none => st.accounts
            else st.accounts
          -- the SELL update targets the transaction initiator's existing account
          let accountsS :=
            if isSell ∧ pingAmount > 0 then
              match getE accountsB (mkId chainId txInitiator) with
              | some account =>
                setE (mkId chainId txInitiator)
                  { account with
                    lastSellAt := some timestamp
                    lastSellHash := some txHash
                    totalSells := account.totalSells + 1
                    totalSellVolume := account.totalSellVolume + pingAmount }
                  accountsB
              | none => accountsB
            else accountsB
          (accountsS, [])
      else (st.accounts, [])
    -- DailyPoolActivity upsert
    let dayStartTimestamp := getDayStartTimestamp ev.timestamp
    let updatedDailyActivity : DailyPoolActivity := match dailyActivity with
      | some da =>
        { da with
          dailySwaps := da.dailySwaps + 1
          dailyVolumeToken0 := da.dailyVolumeToken0 + amount0Abs
          dailyVolumeToken1 := da.dailyVolumeToken1 + amount1Abs
          liquidityEnd := currentLiquidity
          sqrtPriceX96End := ev.sqrtPriceX96 }
      | none =>
        { id := poolId ++ "_" ++ dayId, chainId, pool := poolAddress
          date := dayId, timestamp := dayStartTimestamp
          dailySwaps := 1
          dailyVolumeToken0 := amount0Abs, dailyVolumeToken1 := amount1Abs
          liquidityStart := currentLiquidity, liquidityEnd := currentLiquidity
          sqrtPriceX96Start := ev.sqrtPriceX96, sqrtPriceX96End := ev.sqrtPriceX96 }
    ({ st with
        accounts := accountsAndWarns.1
        pools := setE poolId poolEntity st.pools
        swaps := setE swapEntity.id swapEntity st.swaps
        dailyPool := setE (poolId ++ "_" ++ dayId) updatedDailyActivity st.dailyPool },
     accountsAndWarns.2)

/-! ## V3 initialize handler (src/handlers/initialize-handler.ts) -/

/-- `UniswapV3Pool.Initialize.handler`: sets the pool's initial sqrt-price and
tick and flips `isActive`; warns and skips when the pool is unknown. -/
def uniswapV3InitializeHandler (isPreload : Bool) (ev : InitializeEvent)
    (st : Store) : Store × List String :=
  let chainId := ev.chainId
  let poolAddress := normalizeAddress ev.srcAddress
  let poolId := mkId chainId poolAddress
  let pool? := getE st.pools poolId
  if isPreload then (st, []) else
  match pool? with
  | none =>
    (st, ["Pool " ++ poolAddress ++
          " not found when processing Initialize event. This pool may not contain PING token."])
  | some pool =>
    let updatedPool : Pool :=
      { pool with
        sqrtPriceX96 := ev.sqrtPriceX96
        tick := ev.tick
        isActive := true }
    ({ st with pools := setE poolId updatedPool st.pools }, [])

/-! ## V4 PoolManager swap handler (src/EventHandlers.ts,
`UniswapV4PoolManager.Swap`) — note: this handler never consults
`context.isPreload`; the flag is part of its context but unused. -/

def uniswapV4SwapHandler (_isPreload : Bool) (ev : SwapV4Event) (st : Store) :
    Store × List String :=
  let chainId := ev.chainId
  match getE st.poolV4Registry ev.poolId with
  | none => (st, [])
  | some registry =>
    if ¬ registry.isPingPool then (st, []) else
    let poolEntityId := mkId chainId ev.poolId
    match getE st.poolV4s poolEntityId with
    | none => (st, ["Pool " ++ ev.poolId ++ " not found when processing Swap"])
    | some pool =>
      let absAmount0 := absBI ev.amount0
      let absAmount1 := absBI ev.amount1
      let amount0Dec := convertToDecimal absAmount0 pool.currency0Decimals
      let amount1Dec := convertToDecimal absAmount1 pool.currency1Decimals
      let amount0Signed := if ev.amount0 < 0 then amount0Dec * (-1) else amount0Dec
      let amount1Signed := if ev.amount1 < 0 then amount1Dec * (-1) else amount1Dec
      let updatedPool : PoolV4 :=
        { pool with
          sqrtPriceX96 := ev.sqrtPriceX96
          liquidity := ev.liquidity
          tick := ev.tick
          volumeCurrency0 := pool.volumeCurrency0 + amount0Dec
          volumeCurrency1 := pool.volumeCurrency1 + amount1Dec
          txCount := pool.txCount + 1
          lastSwapAt := ev.timestamp
          isActive := ev.liquidity > 0 }
      let swapEntity : SwapV4 :=
        { id := mkEventId chainId ev.blockNumber ev.logIndex, chainId
          transactionHash := ev.txHash, timestamp := ev.timestamp
          blockNumber := ev.blockNumber, logIndex := ev.logIndex
          pool_id := poolEntityId, poolId := ev.poolId
          sender := normalizeAddress ev.sender
          amount0 := amount0Signed, amount1 := amount1Signed
          sqrtPriceX96 := ev.sqrtPriceX96, liquidity := ev.liquidity
          tick := ev.tick, swapFee := ev.swapFee }
      let st1 :=
        { st with
          poolV4s := setE poolEntityId updatedPool st.poolV4s
          swapV4s := setE swapEntity.id swapEntity st.swapV4s }
      -- PING buy/sell tracking (V4: the initiator is the swap's sender)
      let pingAddress := normalizeAddress PING_TOKEN_ADDRESS
      let isPingCurrency0 := normalizeAddress pool.currency0 = pingAddress
      let isPingCurrency1 := normalizeAddress pool.currency1 = pingAddress
      if isPingCurrency0 ∨ isPingCurrency1 then
        match ev.txFrom with
        | none =>
          (st1, ["V4 Swap event missing transaction.from field at block " ++
                 toString ev.blockNumber ++ ". Skipping buy/sell tracking."])
        | some _ =>
          let txInitiator := normalizeAddress ev.sender
          let isBuy :=
            if isPingCurrency0 then ev.amount0 > 0
            else if isPingCurrency1 then ev.amount1 > 0 else False
          let isSell :=
            if isPingCurrency0 then ev.amount0 < 0
            else if isPingCurrency1 then ev.amount1 < 0 else False
          let pingAmount : ℚ :=
            if isPingCurrency0 then
              (if ev.amount0 > 0 ∨ ev.amount0 < 0 then amount0Dec else 0)
            else if isPingCurrency1 then
              (if ev.amount1 > 0 ∨ ev.amount1 < 0 then amount1Dec else 0)
            else 0
          let accountsB :=
            if isBuy ∧ pingAmount > 0 then
              match getE st1.accounts (mkId chainId txInitiator) with
              | some account =>
                setE (mkId chainId txInitiator)
                  { account with
                    lastBuyAt := some ev.timestamp
                    lastBuyHash := some ev.txHash
                    totalBuys := account.totalBuys + 1
                    totalBuyVolume := account.totalBuyVolume + pingAmount }
                  st1.accounts
              | none => st1.accounts
            else st1.accounts
          let accountsS :=
            if isSell ∧ pingAmount > 0 then
              match getE accountsB (mkId chainId txInitiator) with
              | some account =>
                setE (mkId chainId txInitiator)
                  { account with
                    lastSellAt := some ev.timestamp
                    lastSellHash := some ev.txHash
                    totalSells := account.totalSells + 1
                    totalSellVolume := account.totalSellVolume + pingAmount }
                  accountsB
              | none => accountsB
            else accountsB
          ({ st1 with accounts := accountsS }, [])
      else (st1, [])

/-! ## V4 PoolManager liquidity-modify handler (src/EventHandlers.ts,
`UniswapV4PoolManager.ModifyLiquidity`) — also never consults
`context.isPreload`. `sqrtRatioAtTick` abstracts the floating-point
`getSqrtRatioAtTick` body; its `MIN_TICK`/`MAX_TICK` domain guard throws,
modelled as `none` (the event crashes the pipeline). -/

def uniswapV4ModifyLiquidityHandler (sqrtRatioAtTick : Int → Int)
    (_isPreload : Bool) (ev : ModifyLiquidityV4Event) (st : Store) :
    Option (Store × List String) :=
  let chainId := ev.chainId
  match getE st.poolV4Registry ev.poolId with
  | none => some (st, [])
  | some registry =>
    if ¬ registry.isPingPool then some (st, []) else
    let poolEntityId := mkId chainId ev.poolId
    match getE st.poolV4s poolEntityId with
    | none =>
      some (st, ["Pool " ++ ev.poolId ++ " not found when processing ModifyLiquidity"])
    | some pool =>
      let liquidityDeltaBigInt := ev.liquidityDelta
      let isAdd := liquidityDeltaBigInt ≥ 0
      -- `getSqrtRatioAtTick` throws outside [MIN_TICK, MAX_TICK]
      if ev.tickLower < MIN_TICK ∨ ev.tickLower > MAX_TICK ∨
         ev.tickUpper < MIN_TICK ∨ ev.tickUpper > MAX_TICK then none else
      let sqrtPriceLowerX96 := sqrtRatioAtTick ev.tickLower
      let sqrtPriceUpperX96 := sqrtRatioAtTick ev.tickUpper
      let currentSqrtPriceX96 := pool.sqrtPriceX96
      let amounts := getLiquidityAmounts currentSqrtPriceX96
        sqrtPriceLowerX96 sqrtPriceUpperX96 liquidityDeltaBigInt
      let amount0 := amounts.1
      let amount1 := amounts.2
      let amount0Dec : ℚ :=
        if amount0 ≠ 0 then convertToDecimal (absBI amount0) pool.currency0Decimals else 0
      let amount1Dec : ℚ :=
        if amount1 ≠ 0 then convertToDecimal (absBI amount1) pool.currency1Decimals else 0
      let newLiquidity := pool.liquidity + liquidityDeltaBigInt
      let updatedPool : PoolV4 :=
        { pool with
          liquidity := newLiquidity
          isActive := newLiquidity > 0
          totalValueLockedCurrency0 :=
            if isAdd then pool.totalValueLockedCurrency0 + amount0Dec
            else pool.totalValueLockedCurrency0 - amount0Dec
          totalValueLockedCurrency1 :=
            if isAdd then pool.totalValueLockedCurrency1 + amount1Dec
            else pool.totalValueLockedCurrency1 - amount1Dec }
      let modifyLiquidityEntity : ModifyLiquidityV4 :=
        { id := mkEventId chainId ev.blockNumber ev.logIndex, chainId
          transactionHash := ev.txHash, timestamp := ev.timestamp
          blockNumber := ev.blockNumber, logIndex := ev.logIndex
          pool_id := poolEntityId, poolId := ev.poolId
          sender := normalizeAddress ev.sender
          tickLower := ev.tickLower, tickUpper := ev.tickUpper
          liquidityDelta := liquidityDeltaBigInt, salt := ev.salt
          amount0 := amount0Dec, amount1 := amount1Dec
          modificationType := if isAdd then LIQUIDITY_ADD else LIQUIDITY_REMOVE }
      some
        ({ st with
            poolV4s := setE poolEntityId updatedPool st.poolV4s
            modifyLiquidityV4s :=
              setE modifyLiquidityEntity.id modifyLiquidityEntity st.modifyLiquidityV4s },
         [])

/-! ## Token metadata resolver (src/utils/token-metadata.ts)

The three RPC fetches are network calls; each is modelled by its outcome:
the outer `Except` is the `eth_call` (`error` = the RPC call threw, caught by
the fetcher's own `catch`), the inner value is the decode attempt performed on
a successful call. `decodeString` catches its own decode errors and returns
`"UNKNOWN"` — it never throws to its caller. `fetchDecimals` parses the hex
word inside its `try`, so a parse failure (`BigInt(NaN)` throwing) is caught
by the same `catch` as a call failure. -/

/-- `decodeString`: ABI string decoding with an internal catch-all fallback. -/
def decodeString (attempt : Except Unit String) : String :=
  match attempt with
  | .ok s => s
  | .error _ => "UNKNOWN"

/-- `fetchSymbol`: `symbol()` call, decoded; `"UNKNOWN"` if the call throws. -/
def fetchSymbol (callOutcome : Except Unit (Except Unit String)) : String :=
  match callOutcome with
  | .error _ => "UNKNOWN"
  | .ok attempt => decodeString attempt

/-- `fetchName`: `name()` call, decoded; `"Unknown Token"` if the call throws. -/
def fetchName (callOutcome : Except Unit (Except Unit String)) : String :=
  match callOutcome with
  | .error _ => "Unknown Token"
  | .ok attempt => decodeString attempt

/-- `fetchDecimals`: `decimals()` call; both a call failure and a parse
failure land in the same `catch` and yield `18`. -/
def fetchDecimals (callOutcome : Except Unit (Except Unit Int)) : Int :=
  match callOutcome with
  | .error _ => 18
  | .ok parse =>
    match parse with
    | .error _ => 18
    | .ok n => n

structure TokenMetadata where
  symbol : String
  name : String
  decimals : Int
  deriving DecidableEq

/-- `fetchTokenMetadata`: the three fetches run in parallel and each already
handles its own failure, so the aggregate never fails and each field is a
function of its own call's outcome alone. -/
def fetchTokenMetadata (symbolCall nameCall : Except Unit (Except Unit String))
    (decimalsCall : Except Unit (Except Unit Int)) : TokenMetadata :=
  { symbol := fetchSymbol symbolCall
    name := fetchName nameCall
    decimals := fetchDecimals decimalsCall }

/-! ## Event-sequence processing and the holder-count invariant (claim C1) -/

/-- Commit-pass processing of a Transfer-event sequence, in stream order. -/
def processTransfers (evs : List TransferEvent) (st : Store) : Store :=
  evs.foldl (fun s e => pingTransferHandler false e s) st

/-- An initial store that knows a set of tracked pools but holds no token,
account, or activity state yet. -/
def initStore (pools : List (String × Pool)) : Store :=
  { emptyStore with pools := pools }

/-- Id of the tracked Token row on a chain. -/
def pingTokenId (chainId : Nat) : String :=
  mkId chainId (normalizeAddress PING_TOKEN_ADDRESS)

/-- Holder count carried by an optional Token row (0 while absent). -/
def tokenHolderCountOf (token : Option Token) : Int :=
  match token with
  | some t => t.holderCount
  | none => 0

/-- The tracked Token row's holder count (0 while the row does not exist). -/
def tokenHolderCount (chainId : Nat) (st : Store) : Int :=
  tokenHolderCountOf (getE st.tokens (pingTokenId chainId))

/-- The number of Account rows whose balance is strictly positive. -/
def countPositiveAccounts (st : Store) : Nat :=
  st.accounts.countP (fun p => decide (0 < p.2.balance))

/-! ## Association-list lemmas for the entity-store primitives -/

theorem getE_cons {α : Type} (a : String) (w : α) (t : List (String × α)) (k : String) :
    getE ((a, w) :: t) k = if a = k then some w else getE t k := by
  by_cases h : a = k <;> simp [getE, List.find?, h]

theorem eraseKey_cons {α : Type} (a : String) (w : α) (t : List (String × α))
    (k : String) :
    eraseKey k ((a, w) :: t) =
      if a = k then eraseKey k t else (a, w) :: eraseKey k t := by
  by_cases h : a = k <;> simp [eraseKey, List.filter_cons, h]

theorem eraseKey_eq_self {α : Type} {k : String} {l : List (String × α)}
    (h : k ∉ l.map Prod.fst) : eraseKey k l = l := by
  induction l with
  | nil => rfl
  | cons p t ih =>
    simp only [List.map_cons, List.mem_cons, not_or] at h
    cases p with
    | mk a w =>
      rw [eraseKey_cons, if_neg (fun hh => h.1 hh.symm), ih h.2]

theorem getE_setE_self {α : Type} (k : String) (v : α) (l : List (String × α)) :
    getE (setE k v l) k = some v := by
  simp [setE, getE, List.find?]

theorem getE_eraseKey_ne {α : Type} {k k' : String} (l : List (String × α))
    (h : k' ≠ k) : getE (eraseKey k l) k' = getE l k' := by
  induction l with
  | nil => rfl
  | cons p t ih =>
    cases p with
    | mk a w =>
      by_cases hak : a = k
      · have ha' : a ≠ k' := by rw [hak]; exact fun hh => h hh.symm
        rw [eraseKey_cons, if_pos hak, ih, getE_cons, if_neg ha']
      · rw [eraseKey_cons, if_neg hak, getE_cons, getE_cons, ih]

theorem getE_setE_ne {α : Type} {k k' : String} (v : α) (l : List (String × α))
    (h : k' ≠ k) : getE (setE k v l) k' = getE l k' := by
  rw [setE, getE_cons, if_neg (fun hh => h hh.symm)]
  exact getE_eraseKey_ne l h

theorem mem_setE {α : Type} {p : String × α} {k : String} {v : α}
    {l : List (String × α)} (h : p ∈ setE k v l) : p = (k, v) ∨ p ∈ l := by
  rcases List.mem_cons.mp h with h1 | h1
  · exact Or.inl h1
  · exact Or.inr (List.mem_of_mem_filter h1)

theorem keys_nodup_setE {α : Type} {k : String} (v : α) {l : List (String × α)}
    (h : (l.map Prod.fst).Nodup) : ((setE k v l).map Prod.fst).Nodup := by
  simp only [setE, List.map_cons, List.nodup_cons]
  refine ⟨?_, List.Nodup.sublist ((List.filter_sublist l).map Prod.fst) h⟩
  intro hk
  rcases List.mem_map.mp hk with ⟨p, hp, hpk⟩
  have h2 := List.of_mem_filter hp
  simp [hpk] at h2

/-- The contribution of a looked-up row to a `countP`. -/
def lookupContrib {α : Type} (q : α → Bool) (o : Option α) : Nat :=
  match o with
  | some w => if q w then 1 else 0
  | none => 0

theorem countP_eraseKey {α : Type} (q : α → Bool) (k : String)
    (l : List (String × α)) (hnd : (l.map Prod.fst).Nodup) :
    l.countP (fun p => q p.2) =
      (eraseKey k l).countP (fun p => q p.2) + lookupContrib q (getE l k) := by
  induction l with
  | nil => rfl
  | cons p t ih =>
    cases p with
    | mk a w =>
      simp only [List.map_cons, List.nodup_cons] at hnd
      by_cases hak : a = k
      · subst hak
        rw [eraseKey_cons, if_pos rfl, eraseKey_eq_self hnd.1, getE_cons, if_pos rfl]
        simp [List.countP_cons, lookupContrib]
      · rw [eraseKey_cons, if_neg hak, getE_cons, if_neg hak]
        simp only [List.countP_cons, ih hnd.2]
        omega

theorem countP_setE {α : Type} (q : α → Bool) (k : String) (v : α)
    (l : List (String × α)) (hnd : (l.map Prod.fst).Nodup) :
    (((setE k v l).countP (fun p => q p.2) : Nat) : ℤ) =
      ((l.countP (fun p => q p.2) : Nat) : ℤ) +
        (if q v then 1 else 0) - (lookupContrib q (getE l k) : ℤ) := by
  have h := countP_eraseKey q k l hnd
  simp only [setE, List.countP_cons]
  by_cases hv : q v
  · rw [if_pos hv, if_pos hv]; omega
  · rw [if_neg hv, if_neg hv]; omega

theorem mkId_inj {c : Nat} {a b : String} (h : mkId c a = mkId c b) : a = b := by
  have hd := congrArg String.data h
  simp only [mkId, String.data_append] at hd
  exact String.ext (List.append_cancel_left hd)

/-! ## Holder-count invariant: preservation by the commit-pass transfer
handler (claim C1) -/

/-- Accounts never exist for the zero/burn address or a tracked pool address. -/
def accountsExcludeZeroAndPools (c : Nat) (st : Store) : Prop :=
  ∀ p ∈ st.accounts, p.1 ≠ mkId c ADDRESS_ZERO ∧ getE st.pools p.1 = none

/-- The invariant claimed for the transfer stream: on chain `c`, the Token
row's holder counter equals the number of positive-balance Account rows
(hence is non-negative), and no Account row sits at the zero address or at a
tracked pool address. -/
def holderCountInvariant (c : Nat) (st : Store) : Prop :=
  tokenHolderCount c st = countPositiveAccounts st ∧
  0 ≤ tokenHolderCount c st ∧
  accountsExcludeZeroAndPools c st

/-- Well-formedness carried through the induction. -/
structure HolderWF (c : Nat) (st : Store) : Prop where
  nodup : (st.accounts.map Prod.fst).Nodup
  keyOk : accountsExcludeZeroAndPools c st
  countEq : tokenHolderCount c st = countPositiveAccounts st
  emptyOfNoToken : getE st.tokens (pingTokenId c) = none → st.accounts = []

theorem holderWF_invariant {c : Nat} {st : Store} (h : HolderWF c st) :
    holderCountInvariant c st :=
  ⟨h.countEq, by rw [h.countEq]; exact Int.ofNat_nonneg _, h.keyOk⟩

/-- The positive-balance predicate counted by `countPositiveAccounts`. -/
def posBal (a : Account) : Bool := decide (0 < a.balance)

theorem countPositiveAccounts_def (st : Store) :
    countPositiveAccounts st = st.accounts.countP (fun p => posBal p.2) := rfl

theorem transferValue_nonneg (n : Nat) (d : Nat) :
    0 ≤ convertTokenToDecimal (n : Int) d := by
  unfold convertTokenToDecimal exponentToBigDecimal
  split
  · positivity
  · positivity

theorem transferUpdatedFromAccount_balance (chainId : Nat) (fromAddress : String)
    (fromAccount : Option Account) (transferValue : ℚ) (poolRelatedType : String)
    (timestamp : Nat) (txHash : String) :
    (transferUpdatedFromAccount chainId fromAddress fromAccount transferValue
      poolRelatedType timestamp txHash).balance =
    ((fromAccount.map Account.balance).getD 0) - transferValue := by
  cases fromAccount <;> simp [transferUpdatedFromAccount]

theorem transferUpdatedToAccount_balance (chainId : Nat) (toAddress : String)
    (toAccount : Option Account) (transferValue : ℚ) (poolRelatedType : String)
    (timestamp : Nat) (txHash : String) :
    (transferUpdatedToAccount chainId toAddress toAccount transferValue
      poolRelatedType timestamp txHash).balance =
    ((toAccount.map Account.balance).getD 0) + transferValue := by
  cases toAccount <;> simp [transferUpdatedToAccount]

theorem transferTokenEntity_holderCount (tokenId : String) (chainId : Nat)
    (token : Option Token) (transferValue : ℚ) (holderCountDelta : Int) :
    (transferTokenEntity tokenId chainId token transferValue holderCountDelta).holderCount =
    (match token with
     | some t => t.holderCount + holderCountDelta
     | none => if holderCountDelta > 0 then holderCountDelta else 0) := by
  cases token <;> rfl

/-- When the Token row does not exist yet its initial `holderCount` clamps a
negative delta to zero; with a non-negative delta this is plain addition to
the previous (absent row ⇒ 0) counter. -/
theorem transferTokenEntity_holderCount_eq (tokenId : String) (chainId : Nat)
    (token : Option Token) (transferValue : ℚ) (holderCountDelta : Int)
    (hd : token = none → 0 ≤ holderCountDelta) :
    (transferTokenEntity tokenId chainId token transferValue holderCountDelta).holderCount =
    tokenHolderCountOf token + holderCountDelta := by
  cases token with
  | some t => rfl
  | none =>
    have h0 : 0 ≤ holderCountDelta := hd rfl
    show (if holderCountDelta > 0 then holderCountDelta else 0) =
      tokenHolderCountOf none + holderCountDelta
    by_cases hp : holderCountDelta > 0
    · rw [if_pos hp]
      show holderCountDelta = 0 + holderCountDelta
      rw [zero_add]
    · have hz : holderCountDelta = 0 := le_antisymm (not_lt.mp hp) h0
      rw [if_neg hp, hz]
      rfl

/-- The holder-count delta is non-negative when neither party has an
Account row yet. -/
theorem transferHolderCountDelta_nonneg_of_none (fromAddress toAddress : String)
    (fromPool toPool : Option Pool) (v : ℚ) :
    0 ≤ transferHolderCountDelta fromAddress toAddress fromPool toPool none none v := by
  unfold transferHolderCountDelta
  split_ifs <;> norm_num <;> split_ifs <;> norm_num

/-- The contribution of an optional account row to the positive-balance
count, as an integer. -/
def posContrib (o : Option Account) : ℤ := (lookupContrib posBal o : ℤ)

theorem countZ_condWrite (cond : Prop) [Decidable cond] (k : String) (u : Account)
    (accounts : List (String × Account)) (hnd : (accounts.map Prod.fst).Nodup) :
    (((if cond then setE k u accounts else accounts).countP
        (fun p => posBal p.2) : Nat) : ℤ) =
      ((accounts.countP (fun p => posBal p.2) : Nat) : ℤ) +
      (if cond then
        (if 0 < u.balance then 1 else 0) - posContrib (getE accounts k)
      else 0) := by
  by_cases h : cond
  · rw [if_pos h, if_pos h, countP_setE _ _ _ _ hnd]
    simp only [posBal, posContrib, decide_eq_true_eq]
    ring
  · rw [if_neg h, if_neg h]
    ring

theorem getE_condWrite_ne (cond : Prop) [Decidable cond] {k k' : String}
    (u : Account) (accounts : List (String × Account)) (h : k' ≠ k) :
    getE (if cond then setE k u accounts else accounts) k' = getE accounts k' := by
  by_cases hc : cond
  · rw [if_pos hc, getE_setE_ne _ _ h]
  · rw [if_neg hc]

theorem nodup_condWrite (cond : Prop) [Decidable cond] (k : String) (u : Account)
    (accounts : List (String × Account)) (hnd : (accounts.map Prod.fst).Nodup) :
    (((if cond then setE k u accounts else accounts).map Prod.fst)).Nodup := by
  by_cases hc : cond
  · rw [if_pos hc]; exact keys_nodup_setE _ hnd
  · rwa [if_neg hc]

theorem mem_condWrite {cond : Prop} [Decidable cond] {k : String} {u : Account}
    {accounts : List (String × Account)} {p : String × Account}
    (h : p ∈ (if cond then setE k u accounts else accounts)) :
    (cond ∧ p = (k, u)) ∨ p ∈ accounts := by
  by_cases hc : cond
  · rw [if_pos hc] at h
    rcases mem_setE h with h1 | h1
    · exact Or.inl ⟨hc, h1⟩
    · exact Or.inr h1
  · rw [if_neg hc] at h; exact Or.inr h

theorem getE_nil {α : Type} (k : String) :
    getE ([] : List (String × α)) k = none := rfl

/-- The net change of the positive-balance count caused by the two
conditional account writes of the transfer handler. -/
theorem countZ_transferAccountsUpdate (chainId : Nat) (fromAddress toAddress : String)
    (fromPool toPool : Option Pool) (transferValue : ℚ) (poolRelatedType : String)
    (timestamp : Nat) (txHash : String) (accounts : List (String × Account))
    (hnd : (accounts.map Prod.fst).Nodup)
    (hne : mkId chainId fromAddress ≠ mkId chainId toAddress) :
    (((transferAccountsUpdate chainId fromAddress toAddress fromPool toPool
        (getE accounts (mkId chainId fromAddress))
        (getE accounts (mkId chainId toAddress))
        transferValue poolRelatedType timestamp txHash accounts).countP
        (fun p => posBal p.2) : Nat) : ℤ) =
      ((accounts.countP (fun p => posBal p.2) : Nat) : ℤ)
      + (if fromAddress ≠ ADDRESS_ZERO ∧ fromPool = none then
          (if 0 < ((getE accounts (mkId chainId fromAddress)).map
              Account.balance).getD 0 - transferValue then 1 else 0)
          - posContrib (getE accounts (mkId chainId fromAddress))
        else 0)
      + (if toAddress ≠ ADDRESS_ZERO ∧ toPool = none then
          (if 0 < ((getE accounts (mkId chainId toAddress)).map
              Account.balance).getD 0 + transferValue then 1 else 0)
          - posContrib (getE accounts (mkId chainId toAddress))
        else 0) := by
  unfold transferAccountsUpdate
  have hnd1 := nodup_condWrite (fromAddress ≠ ADDRESS_ZERO ∧ fromPool = none)
    (mkId chainId fromAddress)
    (transferUpdatedFromAccount chainId fromAddress
      (getE accounts (mkId chainId fromAddress)) transferValue poolRelatedType
      timestamp txHash) accounts hnd
  rw [countZ_condWrite _ _ _ _ hnd1,
      countZ_condWrite _ _ _ _ hnd,
      getE_condWrite_ne _ _ _ (Ne.symm hne),
      transferUpdatedFromAccount_balance,
      transferUpdatedToAccount_balance]

/-- The sender side of `holderCountDelta` equals the sender side of the count
change. -/
theorem fromSideDelta (fa : Option Account) (v : ℚ) (hv : 0 ≤ v) :
    (match fa with
     | some a => if a.balance > 0 ∧ a.balance - v ≤ 0 then (-1 : ℤ) else 0
     | none => (0 : ℤ)) =
    (if 0 < (fa.map Account.balance).getD 0 - v then 1 else 0) - posContrib fa := by
  cases fa with
  | none =>
    have h : ¬ (0 : ℚ) < 0 - v := by linarith
    simp only [posContrib, lookupContrib, Option.map_none', Option.getD_none]
    rw [if_neg h]
    norm_num
  | some a =>
    simp only [posContrib, lookupContrib, posBal, Option.map_some', Option.getD_some,
      decide_eq_true_eq]
    by_cases hb : 0 < a.balance
    · by_cases hbv : 0 < a.balance - v
      · rw [if_neg (fun hc => absurd hc.2 (not_le.mpr hbv)), if_pos hbv, if_pos hb]
        norm_num
      · rw [if_pos ⟨hb, not_lt.mp hbv⟩, if_neg hbv, if_pos hb]
        norm_num
    · have hbv : ¬ 0 < a.balance - v := fun hc => hb (by linarith)
      rw [if_neg (fun hc => absurd hc.1 hb), if_neg hbv, if_neg hb]
      norm_num

/-- The receiver side of `holderCountDelta` equals the receiver side of the
count change. -/
theorem toSideDelta (ta : Option Account) (v : ℚ) (hv : 0 ≤ v) :
    (if ((ta.map Account.balance).getD 0 ≤ 0 ∧
        0 < (ta.map Account.balance).getD 0 + v) then (1 : ℤ) else 0) =
    (if 0 < (ta.map Account.balance).getD 0 + v then 1 else 0) - posContrib ta := by
  cases ta with
  | none =>
    simp only [posContrib, lookupContrib, Option.map_none', Option.getD_none]
    norm_num
  | some a =>
    simp only [posContrib, lookupContrib, posBal, Option.map_some', Option.getD_some,
      decide_eq_true_eq]
    by_cases h1 : a.balance ≤ 0
    · by_cases h2 : 0 < a.balance + v
      · rw [if_pos ⟨h1, h2⟩, if_pos h2, if_neg (not_lt.mpr h1)]
        norm_num
      · rw [if_neg (fun hc => absurd hc.2 h2), if_neg h2, if_neg (not_lt.mpr h1)]
        norm_num
    · push_neg at h1
      have h2 : 0 < a.balance + v := by linarith
      rw [if_neg (fun hc => absurd hc.1 (not_le.mpr h1)), if_pos h2, if_pos h1]
      norm_num

/-- `holderCountDelta` equals the change of the positive-balance count the
two account writes will cause — provided the transfer is not a
self-transfer (`fromSideDelta`/`toSideDelta` both read the same pre-state). -/
theorem transferHolderCountDelta_eq (fromAddress toAddress : String)
    (fromPool toPool : Option Pool) (fa ta : Option Account) (v : ℚ)
    (hv : 0 ≤ v) :
    transferHolderCountDelta fromAddress toAddress fromPool toPool fa ta v =
      (if fromAddress ≠ ADDRESS_ZERO ∧ fromPool = none then
        (if 0 < (fa.map Account.balance).getD 0 - v then 1 else 0) - posContrib fa
      else 0)
      + (if toAddress ≠ ADDRESS_ZERO ∧ toPool = none then
        (if 0 < (ta.map Account.balance).getD 0 + v then 1 else 0) - posContrib ta
      else 0) := by
  simp only [transferHolderCountDelta]
  rw [fromSideDelta fa v hv, toSideDelta ta v hv]

/-- One commit-pass run of the transfer handler preserves the holder-count
well-formedness, provided sender and receiver are distinct addresses. -/
theorem holderWF_step {c : Nat} (ev : TransferEvent) {st : Store}
    (hc : ev.chainId = c)
    (hself : normalizeAddress ev.fromAddr ≠ normalizeAddress ev.toAddr)
    (h : HolderWF c st) : HolderWF c (pingTransferHandler false ev st) := by
  subst hc
  have hne : mkId ev.chainId (normalizeAddress ev.fromAddr) ≠
      mkId ev.chainId (normalizeAddress ev.toAddr) :=
    fun hh => hself (mkId_inj hh)
  have hv : 0 ≤ convertTokenToDecimal (ev.value : Int) TOKEN_DECIMALS :=
    transferValue_nonneg ev.value TOKEN_DECIMALS
  have hpools : (pingTransferHandler false ev st).pools = st.pools := rfl
  have haccounts : (pingTransferHandler false ev st).accounts =
      transferAccountsUpdate ev.chainId (normalizeAddress ev.fromAddr)
        (normalizeAddress ev.toAddr)
        (getE st.pools (mkId ev.chainId (normalizeAddress ev.fromAddr)))
        (getE st.pools (mkId ev.chainId (normalizeAddress ev.toAddr)))
        (getE st.accounts (mkId ev.chainId (normalizeAddress ev.fromAddr)))
        (getE st.accounts (mkId ev.chainId (normalizeAddress ev.toAddr)))
        (convertTokenToDecimal (ev.value : Int) TOKEN_DECIMALS)
        (if (getE st.pools (mkId ev.chainId (normalizeAddress ev.toAddr))).isSome
          then POOL_RELATION_SELL
          else if (getE st.pools (mkId ev.chainId (normalizeAddress ev.fromAddr))).isSome
            then POOL_RELATION_BUY else POOL_RELATION_NONE)
        ev.timestamp ev.txHash st.accounts := rfl
  have htokens : getE (pingTransferHandler false ev st).tokens
      (pingTokenId ev.chainId) =
      some (transferTokenEntity (pingTokenId ev.chainId) ev.chainId
        (getE st.tokens (pingTokenId ev.chainId))
        (convertTokenToDecimal (ev.value : Int) TOKEN_DECIMALS)
        (transferHolderCountDelta (normalizeAddress ev.fromAddr)
          (normalizeAddress ev.toAddr)
          (getE st.pools (mkId ev.chainId (normalizeAddress ev.fromAddr)))
          (getE st.pools (mkId ev.chainId (normalizeAddress ev.toAddr)))
          (getE st.accounts (mkId ev.chainId (normalizeAddress ev.fromAddr)))
          (getE st.accounts (mkId ev.chainId (normalizeAddress ev.toAddr)))
          (convertTokenToDecimal (ev.value : Int) TOKEN_DECIMALS))) :=
    getE_setE_self _ _ _
  have hnodup : ((pingTransferHandler false ev st).accounts.map Prod.fst).Nodup := by
    rw [haccounts]
    simp only [transferAccountsUpdate]
    exact nodup_condWrite _ _ _ _ (nodup_condWrite _ _ _ _ h.nodup)
  have hcount := countZ_transferAccountsUpdate ev.chainId
    (normalizeAddress ev.fromAddr) (normalizeAddress ev.toAddr)
    (getE st.pools (mkId ev.chainId (normalizeAddress ev.fromAddr)))
    (getE st.pools (mkId ev.chainId (normalizeAddress ev.toAddr)))
    (convertTokenToDecimal (ev.value : Int) TOKEN_DECIMALS)
    (if (getE st.pools (mkId ev.chainId (normalizeAddress ev.toAddr))).isSome
      then POOL_RELATION_SELL
      else if (getE st.pools (mkId ev.chainId (normalizeAddress ev.fromAddr))).isSome
        then POOL_RELATION_BUY else POOL_RELATION_NONE)
    ev.timestamp ev.txHash st.accounts h.nodup hne
  have hδ := transferHolderCountDelta_eq (normalizeAddress ev.fromAddr)
    (normalizeAddress ev.toAddr)
    (getE st.pools (mkId ev.chainId (normalizeAddress ev.fromAddr)))
    (getE st.pools (mkId ev.chainId (normalizeAddress ev.toAddr)))
    (getE st.accounts (mkId ev.chainId (normalizeAddress ev.fromAddr)))
    (getE st.accounts (mkId ev.chainId (normalizeAddress ev.toAddr)))
    (convertTokenToDecimal (ev.value : Int) TOKEN_DECIMALS) hv
  refine ⟨hnodup, ?_, ?_, ?_⟩
  · -- keyOk
    intro p hp
    rw [haccounts] at hp
    simp only [transferAccountsUpdate] at hp
    rw [hpools]
    rcases mem_condWrite hp with ⟨hcondT, rfl⟩ | hp1
    · refine ⟨fun hk => hcondT.1 (mkId_inj hk), hcondT.2⟩
    · rcases mem_condWrite hp1 with ⟨hcondF, rfl⟩ | hp2
      · refine ⟨fun hk => hcondF.1 (mkId_inj hk), hcondF.2⟩
      · exact h.keyOk p hp2
  · -- countEq
    have hTH : tokenHolderCount ev.chainId (pingTransferHandler false ev st) =
        (transferTokenEntity (pingTokenId ev.chainId) ev.chainId
          (getE st.tokens (pingTokenId ev.chainId))
          (convertTokenToDecimal (ev.value : Int) TOKEN_DECIMALS)
          (transferHolderCountDelta (normalizeAddress ev.fromAddr)
            (normalizeAddress ev.toAddr)
            (getE st.pools (mkId ev.chainId (normalizeAddress ev.fromAddr)))
            (getE st.pools (mkId ev.chainId (normalizeAddress ev.toAddr)))
            (getE st.accounts (mkId ev.chainId (normalizeAddress ev.fromAddr)))
            (getE st.accounts (mkId ev.chainId (normalizeAddress ev.toAddr)))
            (convertTokenToDecimal (ev.value : Int) TOKEN_DECIMALS))).holderCount := by
      unfold tokenHolderCount
      rw [htokens]
      rfl
    have hd0 : getE st.tokens (pingTokenId ev.chainId) = none →
        0 ≤ transferHolderCountDelta (normalizeAddress ev.fromAddr)
          (normalizeAddress ev.toAddr)
          (getE st.pools (mkId ev.chainId (normalizeAddress ev.fromAddr)))
          (getE st.pools (mkId ev.chainId (normalizeAddress ev.toAddr)))
          (getE st.accounts (mkId ev.chainId (normalizeAddress ev.fromAddr)))
          (getE st.accounts (mkId ev.chainId (normalizeAddress ev.toAddr)))
          (convertTokenToDecimal (ev.value : Int) TOKEN_DECIMALS) := by
      intro htok
      rw [h.emptyOfNoToken htok]
      exact transferHolderCountDelta_nonneg_of_none _ _ _ _ _
    rw [hTH, transferTokenEntity_holderCount_eq _ _ _ _ _ hd0]
    have hmatch : tokenHolderCountOf (getE st.tokens (pingTokenId ev.chainId)) =
        tokenHolderCount ev.chainId st := rfl
    rw [hmatch, h.countEq, hδ]
    have hCP : (countPositiveAccounts (pingTransferHandler false ev st) : ℤ) =
        ((st.accounts.countP (fun p => posBal p.2) : Nat) : ℤ)
        + (if normalizeAddress ev.fromAddr ≠ ADDRESS_ZERO ∧
              getE st.pools (mkId ev.chainId (normalizeAddress ev.fromAddr)) = none then
            (if 0 < ((getE st.accounts (mkId ev.chainId (normalizeAddress ev.fromAddr))).map
                Account.balance).getD 0
                - convertTokenToDecimal (ev.value : Int) TOKEN_DECIMALS then 1 else 0)
            - posContrib (getE st.accounts (mkId ev.chainId (normalizeAddress ev.fromAddr)))
          else 0)
        + (if normalizeAddress ev.toAddr ≠ ADDRESS_ZERO ∧
              getE st.pools (mkId ev.chainId (normalizeAddress ev.toAddr)) = none then
            (if 0 < ((getE st.accounts (mkId ev.chainId (normalizeAddress ev.toAddr))).map
                Account.balance).getD 0
                + convertTokenToDecimal (ev.value : Int) TOKEN_DECIMALS then 1 else 0)
            - posContrib (getE st.accounts (mkId ev.chainId (normalizeAddress ev.toAddr)))
          else 0) := by
      rw [countPositiveAccounts_def, haccounts]
      exact hcount
    rw [countPositiveAccounts_def]
    omega
  · -- emptyOfNoToken
    intro habs
    rw [htokens] at habs
    exact absurd habs (by simp)

/-- The well-formedness holds of a store that knows only pools. -/
theorem holderWF_initStore (c : Nat) (pools : List (String × Pool)) :
    HolderWF c (initStore pools) := by
  refine ⟨?_, ?_, ?_, ?_⟩
  · simp [initStore, emptyStore]
  · intro p hp
    simp [initStore, emptyStore] at hp
  · rfl
  · intro _
    rfl

/-- Commit-pass processing of a whole transfer sequence preserves the
well-formedness when no event is a self-transfer. -/
theorem holderWF_processTransfers (c : Nat) :
    ∀ (evs : List TransferEvent) (st : Store),
      (∀ e ∈ evs, e.chainId = c) →
      (∀ e ∈ evs, normalizeAddress e.fromAddr ≠ normalizeAddress e.toAddr) →
      HolderWF c st → HolderWF c (processTransfers evs st)
  | [], _, _, _, h => h
  | e :: t, st, hchain, hnoself, h =>
    holderWF_processTransfers c t _
      (fun x hx => hchain x (List.mem_cons_of_mem _ hx))
      (fun x hx => hnoself x (List.mem_cons_of_mem _ hx))
      (holderWF_step e (hchain e (List.mem_cons_self _ _))
        (hnoself e (List.mem_cons_self _ _)) h)

instance accountsExcludeZeroAndPools.instDecidable (c : Nat) (st : Store) :
    Decidable (accountsExcludeZeroAndPools c st) := by
  unfold accountsExcludeZeroAndPools
  infer_instance

instance holderCountInvariant.instDecidable (c : Nat) (st : Store) :
    Decidable (holderCountInvariant c st) := by
  unfold holderCountInvariant
  infer_instance

/-! ## Claim C1 -/

/-- C1 (counterexample): the claim fails as stated. On the sequence
transfer(0xb → 0xa, 5 raw), then two self-transfers 0xa → 0xa (5 and 10 raw),
the handler's stale preloaded reads make the self-transfers grow the balance
while decrementing the holder counter twice: afterwards `holderCount = -1`
(negative) while exactly one account (0xa) holds a positive balance. -/
theorem c1_holder_count_counterexample :
    ¬ holderCountInvariant 1 (processTransfers
      [{ chainId := 1, fromAddr := "0xb", toAddr := "0xa", value := 5,
         timestamp := 1000, blockNumber := 1, logIndex := 0, txHash := "h1" },
       { chainId := 1, fromAddr := "0xa", toAddr := "0xa", value := 5,
         timestamp := 1001, blockNumber := 2, logIndex := 0, txHash := "h2" },
       { chainId := 1, fromAddr := "0xa", toAddr := "0xa", value := 10,
         timestamp := 1002, blockNumber := 3, logIndex := 0, txHash := "h3" }]
      (initStore [])) := by
  with_unfolding_all decide

/-- C1 (amended): for every strictly-ordered, exactly-once transfer sequence
in which no event is a self-transfer (sender ≠ receiver after address
normalization), after any prefix the Token's holderCount equals the number of
Account rows with strictly positive balance, is never negative, and the
zero/burn address and tracked-pool addresses never receive Account rows. -/
theorem c1_holder_count_invariant (c : Nat) (pools : List (String × Pool))
    (evs l₁ l₂ : List TransferEvent)
    (hsplit : evs = l₁ ++ l₂)
    (hchain : ∀ e ∈ evs, e.chainId = c)
    (hnoself : ∀ e ∈ evs, normalizeAddress e.fromAddr ≠ normalizeAddress e.toAddr) :
    holderCountInvariant c (processTransfers l₁ (initStore pools)) := by
  subst hsplit
  exact holderWF_invariant (holderWF_processTransfers c l₁ _
    (fun e he => hchain e (List.mem_append_left _ he))
    (fun e he => hnoself e (List.mem_append_left _ he))
    (holderWF_initStore c pools))

/-- C1 (witness): the amended invariant, evaluated after the first event of a
concrete two-event sequence. -/
theorem c1_holder_count_invariant_witness :
    holderCountInvariant 1 (processTransfers
      [{ chainId := 1, fromAddr := "0xb", toAddr := "0xa", value := 5,
         timestamp := 1000, blockNumber := 1, logIndex := 0, txHash := "h1" }]
      (initStore [])) :=
  c1_holder_count_invariant 1 []
    [{ chainId := 1, fromAddr := "0xb", toAddr := "0xa", value := 5,
       timestamp := 1000, blockNumber := 1, logIndex := 0, txHash := "h1" },
     { chainId := 1, fromAddr := "0xa", toAddr := "0xc", value := 2,
       timestamp := 1001, blockNumber := 2, logIndex := 0, txHash := "h2" }]
    [{ chainId := 1, fromAddr := "0xb", toAddr := "0xa", value := 5,
       timestamp := 1000, blockNumber := 1, logIndex := 0, txHash := "h1" }]
    [{ chainId := 1, fromAddr := "0xa", toAddr := "0xc", value := 2,
       timestamp := 1001, blockNumber := 2, logIndex := 0, txHash := "h2" }]
    rfl (by decide) (by decide)

/-! ## Claim C2 -/

set_option maxRecDepth 100000 in
/-- C2 (counterexample): the claim fails as stated — the V4 PoolManager Swap
handler never consults `context.isPreload`, so invoked in the preload pass on
a tracked pool it already writes pool/swap entities (here the pool's txCount
becomes 1). -/
theorem c2_preload_counterexample :
    (uniswapV4SwapHandler true
      { chainId := 1, poolId := "0xpool1", sender := "0xS", amount0 := -5,
        amount1 := 7, sqrtPriceX96 := 100, liquidity := 50, tick := 3,
        swapFee := 500, timestamp := 1000, blockNumber := 2, logIndex := 0,
        txHash := "h1", txFrom := some "0xS" }
      { emptyStore with
          poolV4Registry := [("0xpool1",
            { id := "0xpool1", poolId := "0xpool1", isPingPool := true,
              currency0 := "0xa", currency1 := "0xb" })]
          poolV4s := [("1_0xpool1",
            { id := "1_0xpool1", chainId := 1, poolId := "0xpool1",
              currency0 := "0xa", currency1 := "0xb", fee := 500,
              tickSpacing := 10, hooks := "0xh",
              currency0Symbol := "A", currency0Name := "A", currency0Decimals := 6,
              currency1Symbol := "B", currency1Name := "B", currency1Decimals := 18,
              sqrtPriceX96 := 90, liquidity := 0, tick := 0, isActive := false,
              volumeCurrency0 := 0, volumeCurrency1 := 0, txCount := 0,
              totalValueLockedCurrency0 := 0, totalValueLockedCurrency1 := 0,
              createdAt := 900, createdAtBlock := 1, lastSwapAt := 0 })] }).1 ≠
    { emptyStore with
        poolV4Registry := [("0xpool1",
          { id := "0xpool1", poolId := "0xpool1", isPingPool := true,
            currency0 := "0xa", currency1 := "0xb" })]
        poolV4s := [("1_0xpool1",
          { id := "1_0xpool1", chainId := 1, poolId := "0xpool1",
            currency0 := "0xa", currency1 := "0xb", fee := 500,
            tickSpacing := 10, hooks := "0xh",
            currency0Symbol := "A", currency0Name := "A", currency0Decimals := 6,
            currency1Symbol := "B", currency1Name := "B", currency1Decimals := 18,
            sqrtPriceX96 := 90, liquidity := 0, tick := 0, isActive := false,
            volumeCurrency0 := 0, volumeCurrency1 := 0, txCount := 0,
            totalValueLockedCurrency0 := 0, totalValueLockedCurrency1 := 0,
            createdAt := 900, createdAtBlock := 1, lastSwapAt := 0 })] } := by
  with_unfolding_all decide

/-- C2 (amended): the V3-side handlers (Transfer, Swap, Initialize) issue no
entity-store write during the preload pass — the store is returned unchanged
and nothing is logged; the V4 PoolManager handlers do not consult the preload
flag and perform their writes in the preload pass as well. -/
theorem c2_preload_no_writes :
    (∀ (ev : TransferEvent) (st : Store), pingTransferHandler true ev st = st) ∧
    (∀ (ev : SwapEvent) (st : Store), uniswapV3SwapHandler true ev st = (st, [])) ∧
    (∀ (ev : InitializeEvent) (st : Store),
      uniswapV3InitializeHandler true ev st = (st, [])) :=
  ⟨fun _ _ => rfl, fun _ _ => rfl, fun _ _ => rfl⟩

/-! ## Claim C3 -/

/-- C3: in the commit pass, a Swap or Initialize event whose Pool entity is
absent leaves the store exactly as it was and logs exactly one warning. -/
theorem c3_missing_pool_skip :
    (∀ (ev : SwapEvent) (st : Store),
      getE st.pools (mkId ev.chainId (normalizeAddress ev.srcAddress)) = none →
      (uniswapV3SwapHandler false ev st).1 = st ∧
      (uniswapV3SwapHandler false ev st).2.length = 1) ∧
    (∀ (ev : InitializeEvent) (st : Store),
      getE st.pools (mkId ev.chainId (normalizeAddress ev.srcAddress)) = none →
      (uniswapV3InitializeHandler false ev st).1 = st ∧
      (uniswapV3InitializeHandler false ev st).2.length = 1) := by
  constructor
  · intro ev st h
    simp [uniswapV3SwapHandler, h]
  · intro ev st h
    simp [uniswapV3InitializeHandler, h]

/-- C3 (witness): both skips evaluated on concrete events against the empty
store. -/
theorem c3_missing_pool_skip_witness :
    ((uniswapV3SwapHandler false
        { chainId := 1, srcAddress := "0xP", sender := "0xs", recipient := "0xr",
          amount0 := 3, amount1 := -4, sqrtPriceX96 := 10, liquidity := 5,
          tick := 0, timestamp := 1000, blockNumber := 7, logIndex := 1,
          txHash := "h", txFrom := some "0xs" } emptyStore).1 = emptyStore ∧
      (uniswapV3SwapHandler false
        { chainId := 1, srcAddress := "0xP", sender := "0xs", recipient := "0xr",
          amount0 := 3, amount1 := -4, sqrtPriceX96 := 10, liquidity := 5,
          tick := 0, timestamp := 1000, blockNumber := 7, logIndex := 1,
          txHash := "h", txFrom := some "0xs" } emptyStore).2.length = 1) ∧
    ((uniswapV3InitializeHandler false
        { chainId := 1, srcAddress := "0xP", sqrtPriceX96 := 10, tick := 0 }
        emptyStore).1 = emptyStore ∧
      (uniswapV3InitializeHandler false
        { chainId := 1, srcAddress := "0xP", sqrtPriceX96 := 10, tick := 0 }
        emptyStore).2.length = 1) :=
  ⟨c3_missing_pool_skip.1
      { chainId := 1, srcAddress := "0xP", sender := "0xs", recipient := "0xr",
        amount0 := 3, amount1 := -4, sqrtPriceX96 := 10, liquidity := 5,
        tick := 0, timestamp := 1000, blockNumber := 7, logIndex := 1,
        txHash := "h", txFrom := some "0xs" } emptyStore rfl,
    c3_missing_pool_skip.2
      { chainId := 1, srcAddress := "0xP", sqrtPriceX96 := 10, tick := 0 }
      emptyStore rfl⟩

/-! ## Claim C4 -/

/-- C4: a swap with raw `amount0 = -1_000_000` on a 6-decimal token0 and raw
`amount1 = 10^18` on an 18-decimal token1, against an existing Pool: the
stored Swap has decimal amounts −1 and +1, and the Pool's unsigned volumes
each grow by one while txCount grows by one. -/
theorem c4_swap_amount_conversion (ev : SwapEvent) (st : Store) (pool : Pool)
    (hpool : getE st.pools (mkId ev.chainId (normalizeAddress ev.srcAddress)) =
      some pool)
    (hd0 : pool.token0Decimals = 6) (hd1 : pool.token1Decimals = 18)
    (ha0 : ev.amount0 = -1000000) (ha1 : ev.amount1 = 10 ^ 18) :
    (∃ s, getE (uniswapV3SwapHandler false ev st).1.swaps
        (mkEventId ev.chainId ev.blockNumber ev.logIndex) = some s ∧
      s.amount0 = -1 ∧ s.amount1 = 1) ∧
    (∃ p, getE (uniswapV3SwapHandler false ev st).1.pools
        (mkId ev.chainId (normalizeAddress ev.srcAddress)) = some p ∧
      p.volumeToken0 = pool.volumeToken0 + 1 ∧
      p.volumeToken1 = pool.volumeToken1 + 1 ∧
      p.txCount = pool.txCount + 1) := by
  simp only [uniswapV3SwapHandler]
  rw [hpool]
  dsimp only
  refine ⟨⟨_, getE_setE_self _ _ _, ?_, ?_⟩,
          ⟨_, getE_setE_self _ _ _, ?_, ?_, ?_⟩⟩
  · rw [ha0, hd0]
    norm_num [convertTokenToDecimal, exponentToBigDecimal]
  · rw [ha1, hd1]
    norm_num [convertTokenToDecimal, exponentToBigDecimal]
  · rw [ha0, hd0]
    norm_num [convertTokenToDecimal, exponentToBigDecimal]
  · rw [ha1, hd1]
    norm_num [convertTokenToDecimal, exponentToBigDecimal]
  · rfl

set_option maxRecDepth 100000 in
/-- C4 (witness): the scenario evaluated on a concrete pool and event. -/
theorem c4_swap_amount_conversion_witness :
    (∃ s, getE (uniswapV3SwapHandler false
        { chainId := 1, srcAddress := "0xp", sender := "0xs", recipient := "0xr",
          amount0 := -1000000, amount1 := 10 ^ 18, sqrtPriceX96 := 10,
          liquidity := 5, tick := 0, timestamp := 1000, blockNumber := 7,
          logIndex := 1, txHash := "h", txFrom := some "0xs" }
        { emptyStore with pools := [("1_0xp",
          { id := "1_0xp", chainId := 1, address := "0xp", token0 := "0xa",
            token1 := "0xb", feeTier := 500, tickSpacing := 10,
            token0Symbol := "A", token0Name := "A", token0Decimals := 6,
            token1Symbol := "B", token1Name := "B", token1Decimals := 18,
            liquidity := 0, sqrtPriceX96 := 0, tick := 0, isActive := false,
            volumeToken0 := 0, volumeToken1 := 0, txCount := 0,
            totalValueLockedToken0 := 0, totalValueLockedToken1 := 0,
            createdAt := 900, createdAtBlock := 1, lastSwapAt := 0 })] }).1.swaps
        (mkEventId 1 7 1) = some s ∧ s.amount0 = -1 ∧ s.amount1 = 1) ∧
    (∃ p, getE (uniswapV3SwapHandler false
        { chainId := 1, srcAddress := "0xp", sender := "0xs", recipient := "0xr",
          amount0 := -1000000, amount1 := 10 ^ 18, sqrtPriceX96 := 10,
          liquidity := 5, tick := 0, timestamp := 1000, blockNumber := 7,
          logIndex := 1, txHash := "h", txFrom := some "0xs" }
        { emptyStore with pools := [("1_0xp",
          { id := "1_0xp", chainId := 1, address := "0xp", token0 := "0xa",
            token1 := "0xb", feeTier := 500, tickSpacing := 10,
            token0Symbol := "A", token0Name := "A", token0Decimals := 6,
            token1Symbol := "B", token1Name := "B", token1Decimals := 18,
            liquidity := 0, sqrtPriceX96 := 0, tick := 0, isActive := false,
            volumeToken0 := 0, volumeToken1 := 0, txCount := 0,
            totalValueLockedToken0 := 0, totalValueLockedToken1 := 0,
            createdAt := 900, createdAtBlock := 1, lastSwapAt := 0 })] }).1.pools
        (mkId 1 (normalizeAddress "0xp")) = some p ∧
      p.volumeToken0 = 0 + 1 ∧ p.volumeToken1 = 0 + 1 ∧ p.txCount = 0 + 1) :=
  c4_swap_amount_conversion
    { chainId := 1, srcAddress := "0xp", sender := "0xs", recipient := "0xr",
      amount0 := -1000000, amount1 := 10 ^ 18, sqrtPriceX96 := 10,
      liquidity := 5, tick := 0, timestamp := 1000, blockNumber := 7,
      logIndex := 1, txHash := "h", txFrom := some "0xs" }
    { emptyStore with pools := [("1_0xp",
      { id := "1_0xp", chainId := 1, address := "0xp", token0 := "0xa",
        token1 := "0xb", feeTier := 500, tickSpacing := 10,
        token0Symbol := "A", token0Name := "A", token0Decimals := 6,
        token1Symbol := "B", token1Name := "B", token1Decimals := 18,
        liquidity := 0, sqrtPriceX96 := 0, tick := 0, isActive := false,
        volumeToken0 := 0, volumeToken1 := 0, txCount := 0,
        totalValueLockedToken0 := 0, totalValueLockedToken1 := 0,
        createdAt := 900, createdAtBlock := 1, lastSwapAt := 0 })] }
    { id := "1_0xp", chainId := 1, address := "0xp", token0 := "0xa",
      token1 := "0xb", feeTier := 500, tickSpacing := 10,
      token0Symbol := "A", token0Name := "A", token0Decimals := 6,
      token1Symbol := "B", token1Name := "B", token1Decimals := 18,
      liquidity := 0, sqrtPriceX96 := 0, tick := 0, isActive := false,
      volumeToken0 := 0, volumeToken1 := 0, txCount := 0,
      totalValueLockedToken0 := 0, totalValueLockedToken1 := 0,
      createdAt := 900, createdAtBlock := 1, lastSwapAt := 0 }
    (by with_unfolding_all decide) rfl rfl rfl rfl

/-! ## Claim C8 -/

/-- C8: `convertTokenToDecimal` is exact — multiplying back by `10^d` and
truncating recovers the raw integer, and `d = 0` returns the raw value
unchanged. -/
theorem c8_toDecimal_roundtrip (raw : Nat) (d : Nat) (hd : d ≤ 30) :
    ⌊convertTokenToDecimal (raw : Int) d * 10 ^ d⌋ = (raw : Int) ∧
    (d = 0 → convertTokenToDecimal (raw : Int) d = (raw : ℚ)) := by
  constructor
  · unfold convertTokenToDecimal exponentToBigDecimal
    by_cases h : d = 0
    · subst h
      simp
    · rw [if_neg h, div_mul_cancel₀ _ (by positivity)]
      exact_mod_cast Int.floor_intCast (α := ℚ) (raw : Int)
  · intro h
    rw [convertTokenToDecimal, if_pos h]
    norm_cast

/-- C8 (witness): the round trip at `raw = 123456789`, `d = 18`. -/
theorem c8_toDecimal_roundtrip_witness :
    ⌊convertTokenToDecimal ((123456789 : Nat) : Int) 18 * 10 ^ 18⌋ =
      ((123456789 : Nat) : Int) ∧
    ((18 : Nat) = 0 →
      convertTokenToDecimal ((123456789 : Nat) : Int) 18 = ((123456789 : Nat) : ℚ)) :=
  c8_toDecimal_roundtrip 123456789 18 (by decide)

/-! ## Claim C9 -/

/-- C9 (counterexample): the claim fails as stated — when the `name()` call
succeeds but decoding the returned bytes fails, `decodeString`'s internal
catch yields `"UNKNOWN"`, not the claimed `"Unknown Token"` fallback. -/
theorem c9_metadata_counterexample :
    fetchName (Except.ok (Except.error ())) ≠ "Unknown Token" ∧
    fetchName (Except.ok (Except.error ())) = "UNKNOWN" := by
  decide

/-- C9 (amended): the resolver is total and each field is a function of its
own call's outcome alone (one failing field cannot alter the others); on a
failed call the fields fall back to `"UNKNOWN"` / `"Unknown Token"` / `18`
respectively, while on a failed decode symbol and name both fall back to the
string decoder's `"UNKNOWN"` and decimals to `18`. -/
theorem c9_metadata_fallbacks :
    (∀ (s n : Except Unit (Except Unit String)) (d : Except Unit (Except Unit Int)),
      fetchTokenMetadata s n d =
        { symbol := fetchSymbol s, name := fetchName n,
          decimals := fetchDecimals d }) ∧
    fetchSymbol (Except.error ()) = "UNKNOWN" ∧
    fetchSymbol (Except.ok (Except.error ())) = "UNKNOWN" ∧
    (∀ str, fetchSymbol (Except.ok (Except.ok str)) = str) ∧
    fetchName (Except.error ()) = "Unknown Token" ∧
    fetchName (Except.ok (Except.error ())) = "UNKNOWN" ∧
    (∀ str, fetchName (Except.ok (Except.ok str)) = str) ∧
    fetchDecimals (Except.error ()) = 18 ∧
    fetchDecimals (Except.ok (Except.error ())) = 18 ∧
    (∀ n, fetchDecimals (Except.ok (Except.ok n)) = n) :=
  ⟨fun _ _ _ => rfl, rfl, rfl, fun _ => rfl, rfl, rfl, fun _ => rfl,
   rfl, rfl, fun _ => rfl⟩

/-! ## Claim C10 -/

/-- C10: when both the sender and the receiver of a Transfer are tracked pool
addresses, the stored Transfer record is classified SELL (the to-pool check
runs second and overwrites the BUY classification) and `relatedPool` is the
receiver's pool. -/
theorem c10_both_pools_sell (ev : TransferEvent) (st : Store) (fp tp : Pool)
    (hf : getE st.pools (mkId ev.chainId (normalizeAddress ev.fromAddr)) = some fp)
    (ht : getE st.pools (mkId ev.chainId (normalizeAddress ev.toAddr)) = some tp) :
    ∃ tr, getE (pingTransferHandler false ev st).transfers
        (mkEventId ev.chainId ev.blockNumber ev.logIndex) = some tr ∧
      tr.poolRelatedType = POOL_RELATION_SELL ∧
      tr.relatedPool_id = some tp.id ∧
      tr.isPoolRelated = true := by
  simp only [pingTransferHandler]
  rw [hf, ht]
  dsimp only
  exact ⟨_, getE_setE_self _ _ _, rfl, rfl, rfl⟩

set_option maxRecDepth 100000 in
/-- C10 (witness): a pool-to-pool transfer on concrete pools stores SELL with
the receiver's pool. -/
theorem c10_both_pools_sell_witness :
    ∃ tr, getE (pingTransferHandler false
        { chainId := 1, fromAddr := "0xp", toAddr := "0xq", value := 5,
          timestamp := 1000, blockNumber := 9, logIndex := 2, txHash := "h" }
        { emptyStore with pools :=
          [("1_0xp",
            { id := "1_0xp", chainId := 1, address := "0xp", token0 := "0xa",
              token1 := "0xb", feeTier := 500, tickSpacing := 10,
              token0Symbol := "A", token0Name := "A", token0Decimals := 6,
              token1Symbol := "B", token1Name := "B", token1Decimals := 18,
              liquidity := 0, sqrtPriceX96 := 0, tick := 0, isActive := false,
              volumeToken0 := 0, volumeToken1 := 0, txCount := 0,
              totalValueLockedToken0 := 0, totalValueLockedToken1 := 0,
              createdAt := 900, createdAtBlock := 1, lastSwapAt := 0 }),
           ("1_0xq",
            { id := "1_0xq", chainId := 1, address := "0xq", token0 := "0xa",
              token1 := "0xb", feeTier := 500, tickSpacing := 10,
              token0Symbol := "A", token0Name := "A", token0Decimals := 6,
              token1Symbol := "B", token1Name := "B", token1Decimals := 18,
              liquidity := 0, sqrtPriceX96 := 0, tick := 0, isActive := false,
              volumeToken0 := 0, volumeToken1 := 0, txCount := 0,
              totalValueLockedToken0 := 0, totalValueLockedToken1 := 0,
              createdAt := 900, createdAtBlock := 1, lastSwapAt := 0 })] }).transfers
      (mkEventId 1 9 2) = some tr ∧
      tr.poolRelatedType = POOL_RELATION_SELL ∧
      tr.relatedPool_id = some "1_0xq" ∧
      tr.isPoolRelated = true :=
  c10_both_pools_sell
    { chainId := 1, fromAddr := "0xp", toAddr := "0xq", value := 5,
      timestamp := 1000, blockNumber := 9, logIndex := 2, txHash := "h" }
    { emptyStore with pools :=
      [("1_0xp",
        { id := "1_0xp", chainId := 1, address := "0xp", token0 := "0xa",
          token1 := "0xb", feeTier := 500, tickSpacing := 10,
          token0Symbol := "A", token0Name := "A", token0Decimals := 6,
          token1Symbol := "B", token1Name := "B", token1Decimals := 18,
          liquidity := 0, sqrtPriceX96 := 0, tick := 0, isActive := false,
          volumeToken0 := 0, volumeToken1 := 0, txCount := 0,
          totalValueLockedToken0 := 0, totalValueLockedToken1 := 0,
          createdAt := 900, createdAtBlock := 1, lastSwapAt := 0 }),
       ("1_0xq",
        { id := "1_0xq", chainId := 1, address := "0xq", token0 := "0xa",
          token1 := "0xb", feeTier := 500, tickSpacing := 10,
          token0Symbol := "A", token0Name := "A", token0Decimals := 6,
          token1Symbol := "B", token1Name := "B", token1Decimals := 18,
          liquidity := 0, sqrtPriceX96 := 0, tick := 0, isActive := false,
          volumeToken0 := 0, volumeToken1 := 0, txCount := 0,
          totalValueLockedToken0 := 0, totalValueLockedToken1 := 0,
          createdAt := 900, createdAtBlock := 1, lastSwapAt := 0 })] }
    (Pool.mk "1_0xp" 1 "0xp" "0xa" "0xb" 500 10 "A" "A" 6 "B" "B" 18
      0 0 0 false 0 0 0 0 0 900 1 0)
    (Pool.mk "1_0xq" 1 "0xq" "0xa" "0xb" 500 10 "A" "A" 6 "B" "B" 18
      0 0 0 false 0 0 0 0 0 900 1 0)
    (by with_unfolding_all decide) (by with_unfolding_all decide)

/-! ## Claim C6 -/

/-- Round-up division exceeds round-down division by at most one. -/
theorem tdiv_roundUp_bounds (n d : Int) (hn : 0 ≤ n) (hd : 0 < d) :
    n.tdiv d ≤ (n + d - 1).tdiv d ∧ (n + d - 1).tdiv d ≤ n.tdiv d + 1 := by
  rw [Int.tdiv_eq_ediv hn hd.le, Int.tdiv_eq_ediv (by linarith) hd.le]
  refine ⟨Int.ediv_le_ediv hd (by linarith), ?_⟩
  have h1 : n + d - 1 = (n - 1) + 1 * d := by ring
  rw [h1, Int.add_mul_ediv_right _ _ (ne_of_gt hd)]
  have h2 : (n - 1) / d ≤ n / d := Int.ediv_le_ediv hd (by linarith)
  linarith

theorem getAmount0DeltaHelper_zero (l u : Int) (hd : 0 < u * l) :
    getAmount0DeltaHelper l u 0 true = 0 := by
  simp only [getAmount0DeltaHelper, if_true, zero_mul, zero_add]
  rw [Int.tdiv_eq_ediv (by linarith) (by linarith)]
  exact Int.ediv_eq_zero_of_lt (by linarith) (by linarith)

theorem Q96_pos : (0 : ℤ) < Q96 := by unfold Q96; positivity

theorem getAmount1DeltaHelper_zero (l u : Int) :
    getAmount1DeltaHelper l u 0 true = 0 := by
  have hQ : (0 : ℤ) < Q96 := Q96_pos
  simp only [getAmount1DeltaHelper, if_true, zero_mul, zero_add]
  rw [Int.tdiv_eq_ediv (by linarith) (by linarith)]
  exact Int.ediv_eq_zero_of_lt (by linarith) (by linarith)

/-- The sorted-bounds case of the rounding-gap antisymmetry. -/
theorem amountDelta_antisym_bounds_sorted (l u L : Int) (hl : 0 < l)
    (hu : 0 < u) (hlu : l ≤ u) (hL : 0 ≤ L) :
    (0 ≤ getAmount0Delta l u L + getAmount0Delta l u (-L) ∧
      getAmount0Delta l u L + getAmount0Delta l u (-L) ≤ 1) ∧
    (0 ≤ getAmount1Delta l u L + getAmount1Delta l u (-L) ∧
      getAmount1Delta l u L + getAmount1Delta l u (-L) ≤ 1) := by
  have hQ : (0 : ℤ) < Q96 := Q96_pos
  have hsort : ¬ l > u := not_lt.mpr hlu
  simp only [getAmount0Delta, getAmount1Delta, if_neg hsort]
  rcases eq_or_lt_of_le hL with rfl | hpos
  · simp only [neg_zero, lt_irrefl 0, if_false]
    rw [getAmount0DeltaHelper_zero l u (by positivity),
        getAmount1DeltaHelper_zero l u]
    norm_num
  · have hneg : ¬ L < 0 := not_lt.mpr hL
    have hneg2 : -L < 0 := neg_lt_zero.mpr hpos
    have hnum : 0 ≤ L * (u - l) := mul_nonneg hL (by linarith)
    constructor
    · rw [if_neg hneg, if_pos hneg2, neg_neg]
      have hb := tdiv_roundUp_bounds (L * (u - l) * Q96) (u * l)
        (mul_nonneg hnum hQ.le) (by positivity)
      simp only [getAmount0DeltaHelper, if_true, Bool.false_eq_true, if_false]
      constructor <;> linarith [hb.1, hb.2]
    · rw [if_neg hneg, if_pos hneg2, neg_neg]
      have hb := tdiv_roundUp_bounds (L * (u - l)) Q96 hnum hQ
      simp only [getAmount1DeltaHelper, if_true, Bool.false_eq_true, if_false]
      constructor <;> linarith [hb.1, hb.2]

theorem getAmount0Delta_swap (a b L : Int) (hab : b < a) :
    getAmount0Delta a b L = getAmount0Delta b a L := by
  simp only [getAmount0Delta]
  rw [if_pos hab, if_pos hab, if_neg (not_lt.mpr hab.le),
      if_neg (not_lt.mpr hab.le)]

theorem getAmount1Delta_swap (a b L : Int) (hab : b < a) :
    getAmount1Delta a b L = getAmount1Delta b a L := by
  simp only [getAmount1Delta]
  rw [if_pos hab, if_pos hab, if_neg (not_lt.mpr hab.le),
      if_neg (not_lt.mpr hab.le)]

set_option maxRecDepth 100000 in
/-- C6 (counterexample): the claim fails as stated — additions round up and
removals round down, so whenever the division is inexact `amount(L)` exceeds
`-amount(-L)` by one; at bounds (1, 3) and unit liquidity both deltas differ
from the exact negation of their removal counterpart. -/
theorem c6_amount_delta_antisym_counterexample :
    getAmount0Delta 1 3 1 ≠ -getAmount0Delta 1 3 (-1) ∧
    getAmount1Delta 1 3 1 ≠ -getAmount1Delta 1 3 (-1) := by
  with_unfolding_all decide

/-- C6 (amended): for positive sqrt-price bounds and non-negative liquidity
magnitude `L`, the deltas are antisymmetric up to the one-unit rounding gap:
`0 ≤ amount(L) + amount(-L) ≤ 1` for both `getAmount0Delta` and
`getAmount1Delta` (the sum is the round-up/round-down discrepancy, zero
exactly when the division is exact). -/
theorem c6_amount_delta_antisym (a b L : Int) (ha : 0 < a) (hb : 0 < b)
    (hL : 0 ≤ L) :
    (0 ≤ getAmount0Delta a b L + getAmount0Delta a b (-L) ∧
      getAmount0Delta a b L + getAmount0Delta a b (-L) ≤ 1) ∧
    (0 ≤ getAmount1Delta a b L + getAmount1Delta a b (-L) ∧
      getAmount1Delta a b L + getAmount1Delta a b (-L) ≤ 1) := by
  rcases le_or_lt a b with hab | hab
  · exact amountDelta_antisym_bounds_sorted a b L ha hb hab hL
  · rw [getAmount0Delta_swap a b L hab, getAmount0Delta_swap a b (-L) hab,
        getAmount1Delta_swap a b L hab, getAmount1Delta_swap a b (-L) hab]
    exact amountDelta_antisym_bounds_sorted b a L hb ha hab.le hL

/-- C6 (witness): the amended bounds at bounds (1, 3), liquidity 1. -/
theorem c6_amount_delta_antisym_witness :
    (0 ≤ getAmount0Delta 1 3 1 + getAmount0Delta 1 3 (-1) ∧
      getAmount0Delta 1 3 1 + getAmount0Delta 1 3 (-1) ≤ 1) ∧
    (0 ≤ getAmount1Delta 1 3 1 + getAmount1Delta 1 3 (-1) ∧
      getAmount1Delta 1 3 1 + getAmount1Delta 1 3 (-1) ≤ 1) :=
  c6_amount_delta_antisym 1 3 1 (by decide) (by decide) (by decide)

/-! ## Claim C7 -/

/-- A positive liquidity addition over a non-degenerate positive sqrt-price
range requires a strictly positive amount0 (the round-up guarantees at least
one unit). -/
theorem getAmount0Delta_pos (l u L : Int) (hl : 0 < l) (hlu : l < u)
    (hL : 0 < L) : 0 < getAmount0Delta l u L := by
  have hu : 0 < u := lt_trans hl hlu
  have hQ : (0 : ℤ) < Q96 := Q96_pos
  have hd : 0 < u * l := by positivity
  simp only [getAmount0Delta]
  rw [if_neg (not_lt.mpr hlu.le), if_neg (not_lt.mpr hlu.le),
      if_neg (not_lt.mpr hL.le)]
  simp only [getAmount0DeltaHelper, if_true]
  have hnum0 : 0 < L * (u - l) * Q96 := mul_pos (mul_pos hL (by linarith)) hQ
  have hnum : 1 ≤ L * (u - l) * Q96 := by omega
  rw [Int.tdiv_eq_ediv (by linarith) hd.le]
  rw [Int.lt_iff_add_one_le, zero_add, Int.le_ediv_iff_mul_le hd, one_mul]
  linarith

/-- `convertToDecimal` computes the exact quotient `amount / 10^decimals`. -/
theorem convertToDecimal_eq (amount : Int) (decimals : Nat) :
    convertToDecimal amount decimals = (amount : ℚ) / 10 ^ decimals := by
  unfold convertToDecimal
  have h := Int.tdiv_add_tmod amount ((10 : ℤ) ^ decimals)
  have h' : (((10 : ℤ) ^ decimals * Int.tdiv amount ((10 : ℤ) ^ decimals)
      + Int.tmod amount ((10 : ℤ) ^ decimals) : ℤ) : ℚ) = (amount : ℚ) := by
    exact_mod_cast congrArg (fun z : ℤ => (z : ℚ)) h
  push_cast at h'
  have hE : ((10 : ℚ) ^ decimals) ≠ 0 := by positivity
  field_simp
  linarith [h']

/-- C7: a ModifyLiquidity with positive `liquidityDelta` on a tracked pool
whose current sqrt-price is strictly below the position's lower sqrt-price
bound contributes zero amount1 and strictly positive amount0; TVL0 strictly
increases and TVL1 is unchanged. (`sqrtRatioAtTick` abstracts the
floating-point `getSqrtRatioAtTick`; the position's bounds are assumed
positive and properly ordered, as `getSqrtRatioAtTick` yields for a valid
`tickLower < tickUpper` position.) -/
theorem c7_modify_liquidity_below_range (sqrtRatioAtTick : Int → Int)
    (ev : ModifyLiquidityV4Event) (st : Store) (reg : PoolV4Registry)
    (pool : PoolV4)
    (hreg : getE st.poolV4Registry ev.poolId = some reg)
    (hping : reg.isPingPool = true)
    (hpool : getE st.poolV4s (mkId ev.chainId ev.poolId) = some pool)
    (htickL : MIN_TICK ≤ ev.tickLower ∧ ev.tickLower ≤ MAX_TICK)
    (htickU : MIN_TICK ≤ ev.tickUpper ∧ ev.tickUpper ≤ MAX_TICK)
    (hl : 0 < sqrtRatioAtTick ev.tickLower)
    (hlu : sqrtRatioAtTick ev.tickLower < sqrtRatioAtTick ev.tickUpper)
    (hcur : pool.sqrtPriceX96 < sqrtRatioAtTick ev.tickLower)
    (hdelta : 0 < ev.liquidityDelta) :
    ∃ st' w,
      uniswapV4ModifyLiquidityHandler sqrtRatioAtTick false ev st = some (st', w) ∧
      (∃ m, getE st'.modifyLiquidityV4s
          (mkEventId ev.chainId ev.blockNumber ev.logIndex) = some m ∧
        m.amount1 = 0 ∧ 0 < m.amount0) ∧
      (∃ p, getE st'.poolV4s (mkId ev.chainId ev.poolId) = some p ∧
        pool.totalValueLockedCurrency0 < p.totalValueLockedCurrency0 ∧
        p.totalValueLockedCurrency1 = pool.totalValueLockedCurrency1) := by
  have hrange : ¬ (ev.tickLower < MIN_TICK ∨ ev.tickLower > MAX_TICK ∨
      ev.tickUpper < MIN_TICK ∨ ev.tickUpper > MAX_TICK) := by
    push_neg
    exact ⟨htickL.1, htickL.2, htickU.1, htickU.2⟩
  have hA0 : 0 < getAmount0Delta (sqrtRatioAtTick ev.tickLower)
      (sqrtRatioAtTick ev.tickUpper) ev.liquidityDelta :=
    getAmount0Delta_pos _ _ _ hl hlu hdelta
  have hA0dec : 0 < convertToDecimal (absBI (getAmount0Delta
      (sqrtRatioAtTick ev.tickLower) (sqrtRatioAtTick ev.tickUpper)
      ev.liquidityDelta)) pool.currency0Decimals := by
    rw [convertToDecimal_eq]
    have : absBI (getAmount0Delta (sqrtRatioAtTick ev.tickLower)
        (sqrtRatioAtTick ev.tickUpper) ev.liquidityDelta) =
        getAmount0Delta (sqrtRatioAtTick ev.tickLower)
          (sqrtRatioAtTick ev.tickUpper) ev.liquidityDelta := by
      unfold absBI
      rw [if_neg (not_lt.mpr hA0.le)]
    rw [this]
    positivity
  simp only [uniswapV4ModifyLiquidityHandler]
  rw [hreg]
  dsimp only
  rw [hping]
  simp only [Bool.not_true, Bool.false_eq_true, if_false]
  rw [hpool]
  dsimp only
  rw [if_neg hrange]
  simp only [getLiquidityAmounts]
  rw [if_pos hcur.le]
  dsimp only
  rw [if_pos (ne_of_gt hA0), if_neg (by simp : ¬ (0 : ℤ) ≠ 0),
      if_pos (le_of_lt hdelta), if_pos (le_of_lt hdelta)]
  refine ⟨_, _, rfl, ⟨_, getE_setE_self _ _ _, rfl, ?_⟩,
    ⟨_, getE_setE_self _ _ _, ?_, ?_⟩⟩
  · exact hA0dec
  · exact lt_add_of_pos_right _ hA0dec
  · exact add_zero _

set_option maxRecDepth 100000 in
/-- C7 (witness): the below-range liquidity addition on a concrete pool
(current sqrt-price 50, bounds 100 < 200, delta 1000), with the identity
map standing in for the tick → sqrt-price approximation. -/
theorem c7_modify_liquidity_below_range_witness :
    ∃ st' w,
      uniswapV4ModifyLiquidityHandler (fun t => t) false
        { chainId := 1, poolId := "0xv4", sender := "0xS", tickLower := 100,
          tickUpper := 200, liquidityDelta := 1000, salt := "s",
          timestamp := 1000, blockNumber := 5, logIndex := 0, txHash := "h" }
        { emptyStore with
            poolV4Registry := [("0xv4",
              { id := "0xv4", poolId := "0xv4", isPingPool := true,
                currency0 := "0xa", currency1 := "0xb" })]
            poolV4s := [("1_0xv4",
              { id := "1_0xv4", chainId := 1, poolId := "0xv4",
                currency0 := "0xa", currency1 := "0xb", fee := 500,
                tickSpacing := 10, hooks := "0xh",
                currency0Symbol := "A", currency0Name := "A",
                currency0Decimals := 6,
                currency1Symbol := "B", currency1Name := "B",
                currency1Decimals := 18,
                sqrtPriceX96 := 50, liquidity := 0, tick := 0,
                isActive := false,
                volumeCurrency0 := 0, volumeCurrency1 := 0, txCount := 0,
                totalValueLockedCurrency0 := 0,
                totalValueLockedCurrency1 := 0,
                createdAt := 900, createdAtBlock := 1, lastSwapAt := 0 })] } =
        some (st', w) ∧
      (∃ m, getE st'.modifyLiquidityV4s (mkEventId 1 5 0) = some m ∧
        m.amount1 = 0 ∧ 0 < m.amount0) ∧
      (∃ p, getE st'.poolV4s (mkId 1 "0xv4") = some p ∧
        (0 : ℚ) < p.totalValueLockedCurrency0 ∧
        p.totalValueLockedCurrency1 = (0 : ℚ)) :=
  c7_modify_liquidity_below_range (fun t => t)
    { chainId := 1, poolId := "0xv4", sender := "0xS", tickLower := 100,
      tickUpper := 200, liquidityDelta := 1000, salt := "s",
      timestamp := 1000, blockNumber := 5, logIndex := 0, txHash := "h" }
    { emptyStore with
        poolV4Registry := [("0xv4",
          { id := "0xv4", poolId := "0xv4", isPingPool := true,
            currency0 := "0xa", currency1 := "0xb" })]
        poolV4s := [("1_0xv4",
          { id := "1_0xv4", chainId := 1, poolId := "0xv4",
            currency0 := "0xa", currency1 := "0xb", fee := 500,
            tickSpacing := 10, hooks := "0xh",
            currency0Symbol := "A", currency0Name := "A",
            currency0Decimals := 6,
            currency1Symbol := "B", currency1Name := "B",
            currency1Decimals := 18,
            sqrtPriceX96 := 50, liquidity := 0, tick := 0, isActive := false,
            volumeCurrency0 := 0, volumeCurrency1 := 0, txCount := 0,
            totalValueLockedCurrency0 := 0, totalValueLockedCurrency1 := 0,
            createdAt := 900, createdAtBlock := 1, lastSwapAt := 0 })] }
    { id := "0xv4", poolId := "0xv4", isPingPool := true,
      currency0 := "0xa", currency1 := "0xb" }
    { id := "1_0xv4", chainId := 1, poolId := "0xv4",
      currency0 := "0xa", currency1 := "0xb", fee := 500,
      tickSpacing := 10, hooks := "0xh",
      currency0Symbol := "A", currency0Name := "A", currency0Decimals := 6,
      currency1Symbol := "B", currency1Name := "B", currency1Decimals := 18,
      sqrtPriceX96 := 50, liquidity := 0, tick := 0, isActive := false,
      volumeCurrency0 := 0, volumeCurrency1 := 0, txCount := 0,
      totalValueLockedCurrency0 := 0, totalValueLockedCurrency1 := 0,
      createdAt := 900, createdAtBlock := 1, lastSwapAt := 0 }
    (by with_unfolding_all decide) rfl (by with_unfolding_all decide)
    (by decide) (by decide) (by decide) (by decide) (by decide) (by decide)

/-! ## Claim C5 -/

theorem convertTokenToDecimal_pos (n : Int) (d : Nat) (hn : 0 < n) :
    0 < convertTokenToDecimal n d := by
  unfold convertTokenToDecimal exponentToBigDecimal
  have hq : (0 : ℚ) < (n : ℚ) := by exact_mod_cast hn
  split
  · exact hq
  · positivity

set_option maxRecDepth 400000 in
/-- C5 (counterexample): the claim fails as stated. On a PING/other pool
(PING is token0) a swap with positive PING leg is a BUY, but the handler
credits the buy aggregates to the swap's `recipient` (0xbbb), not to the
transaction-originating address (0xaaa): after the swap the originator's
`totalBuys` is still 0 while the recipient's is 1. -/
theorem c5_buy_sell_counterexample :
    (getE (uniswapV3SwapHandler false
      { chainId := 1, srcAddress := "0xp", sender := "0xs",
        recipient := "0xBBB", amount0 := 10 ^ 18, amount1 := -5,
        sqrtPriceX96 := 10, liquidity := 5, tick := 0, timestamp := 1000,
        blockNumber := 7, logIndex := 1, txHash := "h",
        txFrom := some "0xAAA" }
      { emptyStore with
          pools := [("1_0xp",
            { id := "1_0xp", chainId := 1, address := "0xp",
              token0 := "0xd85c31854c2B0Fb40aaA9E2Fc4Da23C21f829d46",
              token1 := "0xb", feeTier := 500, tickSpacing := 10,
              token0Symbol := "PING", token0Name := "Ping",
              token0Decimals := 18,
              token1Symbol := "B", token1Name := "B", token1Decimals := 6,
              liquidity := 0, sqrtPriceX96 := 0, tick := 0, isActive := false,
              volumeToken0 := 0, volumeToken1 := 0, txCount := 0,
              totalValueLockedToken0 := 0, totalValueLockedToken1 := 0,
              createdAt := 900, createdAtBlock := 1, lastSwapAt := 0 })]
          accounts := [("1_0xaaa",
            { id := "1_0xaaa", chainId := 1, address := "0xaaa", balance := 3,
              totalSent := 0, totalReceived := 3, transferCount := 1,
              firstTransferAt := 10, lastTransferAt := 10,
              lastTransferHash := "t", lastBuyAt := none, lastBuyHash := none,
              lastSellAt := none, lastSellHash := none, totalBuys := 0,
              totalSells := 0, totalBuyVolume := 0, totalSellVolume := 0 }),
            ("1_0xbbb",
            { id := "1_0xbbb", chainId := 1, address := "0xbbb", balance := 4,
              totalSent := 0, totalReceived := 4, transferCount := 1,
              firstTransferAt := 10, lastTransferAt := 10,
              lastTransferHash := "t", lastBuyAt := none, lastBuyHash := none,
              lastSellAt := none, lastSellHash := none, totalBuys := 0,
              totalSells := 0, totalBuyVolume := 0,
              totalSellVolume := 0 })] }).1.accounts
      (mkId 1 "0xaaa")).map Account.totalBuys = some 0 ∧
    (getE (uniswapV3SwapHandler false
      { chainId := 1, srcAddress := "0xp", sender := "0xs",
        recipient := "0xBBB", amount0 := 10 ^ 18, amount1 := -5,
        sqrtPriceX96 := 10, liquidity := 5, tick := 0, timestamp := 1000,
        blockNumber := 7, logIndex := 1, txHash := "h",
        txFrom := some "0xAAA" }
      { emptyStore with
          pools := [("1_0xp",
            { id := "1_0xp", chainId := 1, address := "0xp",
              token0 := "0xd85c31854c2B0Fb40aaA9E2Fc4Da23C21f829d46",
              token1 := "0xb", feeTier := 500, tickSpacing := 10,
              token0Symbol := "PING", token0Name := "Ping",
              token0Decimals := 18,
              token1Symbol := "B", token1Name := "B", token1Decimals := 6,
              liquidity := 0, sqrtPriceX96 := 0, tick := 0, isActive := false,
              volumeToken0 := 0, volumeToken1 := 0, txCount := 0,
              totalValueLockedToken0 := 0, totalValueLockedToken1 := 0,
              createdAt := 900, createdAtBlock := 1, lastSwapAt := 0 })]
          accounts := [("1_0xaaa",
            { id := "1_0xaaa", chainId := 1, address := "0xaaa", balance := 3,
              totalSent := 0, totalReceived := 3, transferCount := 1,
              firstTransferAt := 10, lastTransferAt := 10,
              lastTransferHash := "t", lastBuyAt := none, lastBuyHash := none,
              lastSellAt := none, lastSellHash := none, totalBuys := 0,
              totalSells := 0, totalBuyVolume := 0, totalSellVolume := 0 }),
            ("1_0xbbb",
            { id := "1_0xbbb", chainId := 1, address := "0xbbb", balance := 4,
              totalSent := 0, totalReceived := 4, transferCount := 1,
              firstTransferAt := 10, lastTransferAt := 10,
              lastTransferHash := "t", lastBuyAt := none, lastBuyHash := none,
              lastSellAt := none, lastSellHash := none, totalBuys := 0,
              totalSells := 0, totalBuyVolume := 0,
              totalSellVolume := 0 })] }).1.accounts
      (mkId 1 "0xbbb")).map Account.totalBuys = some 1 := by
  with_unfolding_all decide

/-- C5 (amended): on a v3 swap against a pool that involves the tracked
token, with the transaction originator available: a positive tracked leg is a
BUY and updates the buy aggregates of the swap **recipient's** existing
Account; a negative tracked leg is a SELL and updates the sell aggregates of
the transaction originator's existing Account; when the originator is
unavailable the whole buy/sell update is skipped with a warning and no
Account is written. Stated for the tracked token as token0 and (when token0
is not the tracked token) as token1. -/
theorem c5_buy_sell_tracking (ev : SwapEvent) (st : Store) (pool : Pool)
    (hpool : getE st.pools (mkId ev.chainId (normalizeAddress ev.srcAddress)) =
      some pool) :
    (∀ f acct,
      normalizeAddress pool.token0 = normalizeAddress PING_TOKEN_ADDRESS →
      ev.txFrom = some f → 0 < ev.amount0 →
      getE st.accounts (mkId ev.chainId (normalizeAddress ev.recipient)) =
        some acct →
      getE (uniswapV3SwapHandler false ev st).1.accounts
          (mkId ev.chainId (normalizeAddress ev.recipient)) =
        some { acct with
          lastBuyAt := some ev.timestamp
          lastBuyHash := some ev.txHash
          totalBuys := acct.totalBuys + 1
          totalBuyVolume := acct.totalBuyVolume +
            convertTokenToDecimal ev.amount0 pool.token0Decimals }) ∧
    (∀ f acct,
      normalizeAddress pool.token0 = normalizeAddress PING_TOKEN_ADDRESS →
      ev.txFrom = some f → ev.amount0 < 0 →
      getE st.accounts (mkId ev.chainId (normalizeAddress f)) = some acct →
      getE (uniswapV3SwapHandler false ev st).1.accounts
          (mkId ev.chainId (normalizeAddress f)) =
        some { acct with
          lastSellAt := some ev.timestamp
          lastSellHash := some ev.txHash
          totalSells := acct.totalSells + 1
          totalSellVolume := acct.totalSellVolume +
            convertTokenToDecimal (-ev.amount0) pool.token0Decimals }) ∧
    (∀ f acct,
      normalizeAddress pool.token0 ≠ normalizeAddress PING_TOKEN_ADDRESS →
      normalizeAddress pool.token1 = normalizeAddress PING_TOKEN_ADDRESS →
      ev.txFrom = some f → 0 < ev.amount1 →
      getE st.accounts (mkId ev.chainId (normalizeAddress ev.recipient)) =
        some acct →
      getE (uniswapV3SwapHandler false ev st).1.accounts
          (mkId ev.chainId (normalizeAddress ev.recipient)) =
        some { acct with
          lastBuyAt := some ev.timestamp
          lastBuyHash := some ev.txHash
          totalBuys := acct.totalBuys + 1
          totalBuyVolume := acct.totalBuyVolume +
            convertTokenToDecimal ev.amount1 pool.token1Decimals }) ∧
    (∀ f acct,
      normalizeAddress pool.token0 ≠ normalizeAddress PING_TOKEN_ADDRESS →
      normalizeAddress pool.token1 = normalizeAddress PING_TOKEN_ADDRESS →
      ev.txFrom = some f → ev.amount1 < 0 →
      getE st.accounts (mkId ev.chainId (normalizeAddress f)) = some acct →
      getE (uniswapV3SwapHandler false ev st).1.accounts
          (mkId ev.chainId (normalizeAddress f)) =
        some { acct with
          lastSellAt := some ev.timestamp
          lastSellHash := some ev.txHash
          totalSells := acct.totalSells + 1
          totalSellVolume := acct.totalSellVolume +
            convertTokenToDecimal (-ev.amount1) pool.token1Decimals }) ∧
    ((normalizeAddress pool.token0 = normalizeAddress PING_TOKEN_ADDRESS ∨
      normalizeAddress pool.token1 = normalizeAddress PING_TOKEN_ADDRESS) →
      ev.txFrom = none →
      (uniswapV3SwapHandler false ev st).1.accounts = st.accounts ∧
      (uniswapV3SwapHandler false ev st).2.length = 1) := by
  refine ⟨?_, ?_, ?_, ?_, ?_⟩
  · intro f acct hping hfrom hpos hacct
    have hneg : ¬ ev.amount0 < 0 := not_lt.mpr hpos.le
    have hCp : 0 < convertTokenToDecimal ev.amount0 pool.token0Decimals :=
      convertTokenToDecimal_pos _ _ hpos
    simp only [uniswapV3SwapHandler]
    rw [hpool]
    dsimp only
    rw [if_pos (Or.inl hping), hfrom]
    dsimp only
    simp only [hping, eq_self_iff_true, if_true, hpos, hneg, if_false,
      true_or, and_true, true_and, false_and, if_true]
    rw [if_pos hCp, hacct]
    dsimp only
    exact getE_setE_self _ _ _
  · intro f acct hping hfrom hneg hacct
    have hpos' : ¬ 0 < ev.amount0 := not_lt.mpr hneg.le
    have hCp : 0 < convertTokenToDecimal (-ev.amount0) pool.token0Decimals :=
      convertTokenToDecimal_pos _ _ (by linarith)
    simp only [uniswapV3SwapHandler]
    rw [hpool]
    dsimp only
    rw [if_pos (Or.inl hping), hfrom]
    dsimp only
    simp only [hping, eq_self_iff_true, if_true, hneg, hpos', if_false,
      or_true, and_true, true_and, false_and, if_true, if_pos hneg]
    rw [if_pos hCp, hacct]
    dsimp only
    exact getE_setE_self _ _ _
  · intro f acct hne0 hping1 hfrom hpos hacct
    have hneg : ¬ ev.amount1 < 0 := not_lt.mpr hpos.le
    have hCp : 0 < convertTokenToDecimal ev.amount1 pool.token1Decimals :=
      convertTokenToDecimal_pos _ _ hpos
    simp only [uniswapV3SwapHandler]
    rw [hpool]
    dsimp only
    rw [if_pos (Or.inr hping1), hfrom]
    dsimp only
    simp only [hne0, hping1, eq_self_iff_true, if_true, hpos, hneg, if_false,
      true_or, and_true, true_and, false_and, if_true]
    rw [if_pos hCp, hacct]
    dsimp only
    exact getE_setE_self _ _ _
  · intro f acct hne0 hping1 hfrom hneg hacct
    have hpos' : ¬ 0 < ev.amount1 := not_lt.mpr hneg.le
    have hCp : 0 < convertTokenToDecimal (-ev.amount1) pool.token1Decimals :=
      convertTokenToDecimal_pos _ _ (by linarith)
    simp only [uniswapV3SwapHandler]
    rw [hpool]
    dsimp only
    rw [if_pos (Or.inr hping1), hfrom]
    dsimp only
    simp only [hne0, hping1, eq_self_iff_true, if_true, hneg, hpos', if_false,
      or_true, and_true, true_and, false_and, if_true, if_pos hneg]
    rw [if_pos hCp, hacct]
    dsimp only
    exact getE_setE_self _ _ _
  · intro hor hnone
    simp only [uniswapV3SwapHandler]
    rw [hpool]
    dsimp only
    rw [if_pos hor, hnone]
    dsimp only
    exact ⟨rfl, rfl⟩

set_option maxRecDepth 400000 in
/-- C5 (witness): the BUY branch of the amended theorem on the concrete
PING-is-token0 pool — the recipient's account receives the buy update. -/
theorem c5_buy_sell_tracking_witness :
    getE (uniswapV3SwapHandler false
      { chainId := 1, srcAddress := "0xp", sender := "0xs",
        recipient := "0xBBB", amount0 := 10 ^ 18, amount1 := -5,
        sqrtPriceX96 := 10, liquidity := 5, tick := 0, timestamp := 1000,
        blockNumber := 7, logIndex := 1, txHash := "h",
        txFrom := some "0xAAA" }
      { emptyStore with
          pools := [("1_0xp",
            { id := "1_0xp", chainId := 1, address := "0xp",
              token0 := "0xd85c31854c2B0Fb40aaA9E2Fc4Da23C21f829d46",
              token1 := "0xb", feeTier := 500, tickSpacing := 10,
              token0Symbol := "PING", token0Name := "Ping",
              token0Decimals := 18,
              token1Symbol := "B", token1Name := "B", token1Decimals := 6,
              liquidity := 0, sqrtPriceX96 := 0, tick := 0, isActive := false,
              volumeToken0 := 0, volumeToken1 := 0, txCount := 0,
              totalValueLockedToken0 := 0, totalValueLockedToken1 := 0,
              createdAt := 900, createdAtBlock := 1, lastSwapAt := 0 })]
          accounts := [("1_0xbbb",
            { id := "1_0xbbb", chainId := 1, address := "0xbbb", balance := 4,
              totalSent := 0, totalReceived := 4, transferCount := 1,
              firstTransferAt := 10, lastTransferAt := 10,
              lastTransferHash := "t", lastBuyAt := none, lastBuyHash := none,
              lastSellAt := none, lastSellHash := none, totalBuys := 0,
              totalSells := 0, totalBuyVolume := 0,
              totalSellVolume := 0 })] }).1.accounts
      (mkId 1 (normalizeAddress "0xBBB")) =
    some { ({ id := "1_0xbbb", chainId := 1, address := "0xbbb", balance := 4,
              totalSent := 0, totalReceived := 4, transferCount := 1,
              firstTransferAt := 10, lastTransferAt := 10,
              lastTransferHash := "t", lastBuyAt := none, lastBuyHash := none,
              lastSellAt := none, lastSellHash := none, totalBuys := 0,
              totalSells := 0, totalBuyVolume := 0,
              totalSellVolume := 0 } : Account) with
      lastBuyAt := some 1000
      lastBuyHash := some "h"
      totalBuys := (0 : Int) + 1
      totalBuyVolume := (0 : ℚ) + convertTokenToDecimal (10 ^ 18) 18 } :=
  (c5_buy_sell_tracking
    { chainId := 1, srcAddress := "0xp", sender := "0xs",
      recipient := "0xBBB", amount0 := 10 ^ 18, amount1 := -5,
      sqrtPriceX96 := 10, liquidity := 5, tick := 0, timestamp := 1000,
      blockNumber := 7, logIndex := 1, txHash := "h",
      txFrom := some "0xAAA" }
    { emptyStore with
        pools := [("1_0xp",
          { id := "1_0xp", chainId := 1, address := "0xp",
            token0 := "0xd85c31854c2B0Fb40aaA9E2Fc4Da23C21f829d46",
            token1 := "0xb", feeTier := 500, tickSpacing := 10,
            token0Symbol := "PING", token0Name := "Ping",
            token0Decimals := 18,
            token1Symbol := "B", token1Name := "B", token1Decimals := 6,
            liquidity := 0, sqrtPriceX96 := 0, tick := 0, isActive := false,
            volumeToken0 := 0, volumeToken1 := 0, txCount := 0,
            totalValueLockedToken0 := 0, totalValueLockedToken1 := 0,
            createdAt := 900, createdAtBlock := 1, lastSwapAt := 0 })]
        accounts := [("1_0xbbb",
          { id := "1_0xbbb", chainId := 1, address := "0xbbb", balance := 4,
            totalSent := 0, totalReceived := 4, transferCount := 1,
            firstTransferAt := 10, lastTransferAt := 10,
            lastTransferHash := "t", lastBuyAt := none, lastBuyHash := none,
            lastSellAt := none, lastSellHash := none, totalBuys := 0,
            totalSells := 0, totalBuyVolume := 0,
            totalSellVolume := 0 })] }
    { id := "1_0xp", chainId := 1, address := "0xp",
      token0 := "0xd85c31854c2B0Fb40aaA9E2Fc4Da23C21f829d46",
      token1 := "0xb", feeTier := 500, tickSpacing := 10,
      token0Symbol := "PING", token0Name := "Ping", token0Decimals := 18,
      token1Symbol := "B", token1Name := "B", token1Decimals := 6,
      liquidity := 0, sqrtPriceX96 := 0, tick := 0, isActive := false,
      volumeToken0 := 0, volumeToken1 := 0, txCount := 0,
      totalValueLockedToken0 := 0, totalValueLockedToken1 := 0,
      createdAt := 900, createdAtBlock := 1, lastSwapAt := 0 }
    (by with_unfolding_all decide)).1
    "0xAAA"
    { id := "1_0xbbb", chainId := 1, address := "0xbbb", balance := 4,
      totalSent := 0, totalReceived := 4, transferCount := 1,
      firstTransferAt := 10, lastTransferAt := 10,
      lastTransferHash := "t", lastBuyAt := none, lastBuyHash := none,
      lastSellAt := none, lastSellHash := none, totalBuys := 0,
      totalSells := 0, totalBuyVolume := 0, totalSellVolume := 0 }
    (by with_unfolding_all decide) rfl (by decide)
    (by with_unfolding_all decide)

end PingIndexer
